import Mathlib

/-!
Verification development for the ycode styling core.

This file gives a shallow embedding, in Lean 4, of the class/design codec
(`src/lib/tailwind-class-mapper.ts`) and of the relevant pure parts of the
canvas renderer (`src/public/canvas-renderer.js`), together with theorems
settling the specification claims about them.

Strings are embedded as `List Char` (named `Str` below); JavaScript regular
expressions are embedded as executable boolean recognizers that follow the
regex literal from the source; JavaScript `null`/`undefined` results become
`Option`.  Functions keep the source names, except that names that would end
in reserved suffixes are abbreviated (`…Pfx` for `…Prefix`).
-/

set_option maxRecDepth 10000
set_option maxHeartbeats 400000

/-- Strings from the source are embedded as lists of characters. -/
abbrev Str := List Char

/-- `String.prototype.startsWith` on the embedding. -/
def strStarts (p s : Str) : Bool := p.isPrefixOf s

/-- `a.includes(b)`: substring containment (JS `String.prototype.includes`). -/
def strIncludes (needle s : Str) : Bool :=
  match s with
  | [] => needle.isPrefixOf []
  | _ :: rest => needle.isPrefixOf s || strIncludes needle rest

/-- `String.prototype.endsWith` on the embedding. -/
def strEnds (suffix s : Str) : Bool := suffix.isSuffixOf s

/-- ASCII decimal digit (regex `\d`). -/
def isDigitCh (c : Char) : Bool := '0' ≤ c && c ≤ '9'

/-- Hexadecimal digit (regex `[0-9A-Fa-f]`). -/
def isHexCh (c : Char) : Bool :=
  isDigitCh c || ('a' ≤ c && c ≤ 'f') || ('A' ≤ c && c ≤ 'F')

/-- Word character (regex `\w`, i.e. `[A-Za-z0-9_]`). -/
def isWordCh (c : Char) : Bool :=
  isDigitCh c || ('a' ≤ c && c ≤ 'z') || ('A' ≤ c && c ≤ 'Z') || c == '_'

/-- Whitespace as matched by the regex class `\s` (ASCII part). -/
def isSpaceCh (c : Char) : Bool :=
  c == ' ' || c == '\t' || c == '\n' || c == '\r' || c == '\x0b' || c == '\x0c'

/-- Lower-casing used for the case-insensitive (`/i`) regex tests and
`value.toLowerCase()`. -/
def lowerStr (s : Str) : Str := s.map Char.toLower

/-- Nonempty all-digit string (regex `\d+` anchored). -/
def allDigits (s : Str) : Bool := !s.isEmpty && s.all isDigitCh

/-- Anchored regex fragment `\[.+\]`: an opening bracket, at least one
character none of which is a newline, and a closing bracket at the end.
(`.` does not match a newline; it may match a further `]`.) -/
def isArbitrary (s : Str) : Bool :=
  match s with
  | '[' :: rest =>
      decide (2 ≤ rest.length) && rest.getLast? == some ']'
        && rest.dropLast.all (fun c => c != '\n')
  | _ => false

/-- Anchored regex `-?\d*\.?\d+`: an optional sign, then either a nonempty
digit string or `digits* '.' digits+`. -/
def isNumericCore (s : Str) : Bool :=
  let core := fun (t : Str) =>
    (!t.isEmpty && t.all isDigitCh)
      || (let pre := t.takeWhile (fun c => c ≠ '.')
          match t.drop pre.length with
          | '.' :: post => pre.all isDigitCh && !post.isEmpty && post.all isDigitCh
          | _ => false)
  match s with
  | '-' :: rest => core rest
  | _ => core s

/-- The size units recognized by `isColorValue`'s unit test
(`px|rem|em|%|vh|vw|vmin|vmax|ch|ex|cm|mm|in|pt|pc`). -/
def sizeUnits : List Str :=
  ["px".data, "rem".data, "em".data, "%".data, "vh".data, "vw".data,
   "vmin".data, "vmax".data, "ch".data, "ex".data, "cm".data, "mm".data,
   "in".data, "pt".data, "pc".data]

/-- Anchored, case-insensitive regex
`^-?\d*\.?\d+(px|rem|em|%|vh|vw|vmin|vmax|ch|ex|cm|mm|in|pt|pc)$`. -/
def isNumberWithUnit (s : Str) : Bool :=
  let l := lowerStr s
  sizeUnits.any (fun u => strEnds u l && isNumericCore (l.take (l.length - u.length)))

/-- Color keyword list from `isColorValue`. -/
def colorKeywords : List Str :=
  ["transparent".data, "currentcolor".data, "inherit".data,
   "black".data, "white".data, "red".data, "green".data, "blue".data,
   "yellow".data, "purple".data, "pink".data, "gray".data, "grey".data,
   "orange".data, "cyan".data, "magenta".data, "indigo".data, "violet".data,
   "brown".data, "lime".data, "teal".data, "navy".data, "maroon".data,
   "olive".data]

/-- Case-insensitive anchored-at-start regex `^rgba?\s*\(` (`name` is `rgb`;
similarly used for `hsl`): the name, an optional `a`, any `\s*`, then `(`. -/
def fnCallStart (name : Str) (s : Str) : Bool :=
  let l := lowerStr s
  (name.isPrefixOf l &&
    (let rest := l.drop name.length
     let rest := match rest with
       | 'a' :: r => r
       | r => r
     match rest.dropWhile isSpaceCh with
     | '(' :: _ => true
     | _ => false))
  ||
  (name.isPrefixOf l &&
    (let rest := l.drop name.length
     match rest.dropWhile isSpaceCh with
     | '(' :: _ => true
     | _ => false))

/-- Source: `isColorValue` (tailwind-class-mapper.ts). Checks hex colors,
`rgb(a)`/`hsl(a)` calls and color keywords; values with a size unit or a
plain number shape are explicitly not colors; default is `false`. -/
def isColorValue (value : Str) : Bool :=
  -- hex colors, with or without '#': 3, 6 or 8 hex digits
  if (match value with
      | '#' :: rest => (rest.length = 3 || rest.length = 6 || rest.length = 8) && rest.all isHexCh
      | rest => (rest.length = 3 || rest.length = 6 || rest.length = 8) && rest.all isHexCh) then true
  -- rgb/rgba functions, case-insensitive
  else if fnCallStart "rgb".data value then true
  -- hsl/hsla functions, case-insensitive
  else if fnCallStart "hsl".data value then true
  -- CSS color keywords
  else if colorKeywords.contains (lowerStr value) then true
  -- a size unit means definitely NOT a color
  else if isNumberWithUnit value then false
  -- a bare number is a size, not a color
  else if isNumericCore value then false
  else false

/-- The URL test of `isImageValue`: `url(` at the start, or `http://`,
`https://` or `data:` anywhere. -/
def isImageUrlLike (value : Str) : Bool :=
  strStarts "url(".data value || strIncludes "http://".data value
    || strIncludes "https://".data value || strIncludes "data:".data value

/-- The gradient test of `isImageValue`. -/
def isImageGradientLike (value : Str) : Bool :=
  strIncludes "gradient(".data value || strIncludes "linear-gradient".data value
    || strIncludes "radial-gradient".data value || strIncludes "conic-gradient".data value

/-- Source: `isImageValue` (tailwind-class-mapper.ts). URLs and gradients are
images; otherwise a value that is a color is not an image; default `false`. -/
def isImageValue (value : Str) : Bool :=
  if isImageUrlLike value then true
  else if isImageGradientLike value then true
  else if isColorValue value then false
  else false

example : isColorValue "#ff0000".data = true := by decide
example : isColorValue "1.5rem".data = false := by decide
example : isColorValue "rgb(1,2,3)".data = true := by decide
example : isColorValue "RGBA (1,2,3,0.5)".data = true := by decide
example : isColorValue "red".data = true := by decide
example : isColorValue "10".data = false := by decide
example : isColorValue "abc".data = true := by decide
example : isColorValue "50px".data = false := by decide
example : isImageValue "url(x.png)".data = true := by decide
example : isImageValue "#ff0000".data = false := by decide
example : isImageValue "linear-gradient(red, blue)".data = true := by decide

/-- Source: `formatMeasurementClass` (tailwind-class-mapper.ts).  Named values
pass through, `px` values and bare numbers become arbitrary bracket classes
(bare numbers get `px` appended), other values beginning with a digit are
bracketed verbatim, anything else becomes a named class.  The `prefix`
parameter of the source is called `pfx` here. -/
def formatMeasurementClass (value : Str) (pfx : Str)
    (allowedNamedValues : List Str := []) : Str :=
  if allowedNamedValues.contains value then
    pfx ++ "-".data ++ value
  else if strEnds "px".data value then
    pfx ++ "-[".data ++ value ++ "]".data
  else if isNumericCore value then
    pfx ++ "-[".data ++ value ++ "px]".data
  else if (match value with | c :: _ => isDigitCh c | [] => false) then
    pfx ++ "-[".data ++ value ++ "]".data
  else
    pfx ++ "-".data ++ value

/-- Helper for patterns of shape `^pfx-(alt1|alt2|…)$` where the whole class
is `pfx` followed by one alternative. -/
def pfxAlt (pfx : Str) (alts : List Str) (cls : Str) : Bool :=
  strStarts pfx cls && alts.contains (cls.drop pfx.length)

/-- Helper for patterns whose suffix may also be `\[.+\]` or `\d+`. -/
def pfxArbNumAlt (pfx : Str) (alts : List Str) (cls : Str) : Bool :=
  strStarts pfx cls &&
    (let rest := cls.drop pfx.length
     isArbitrary rest || allDigits rest || alts.contains rest)

/-- Spacing suffix `(\[.+\]|\d+|px|0\.5|1\.5|2\.5|3\.5)` shared by the
gap/padding patterns; margins additionally allow `auto` via `extra`. -/
def spacingPattern (pfx : Str) (extra : List Str) (cls : Str) : Bool :=
  pfxArbNumAlt pfx (["px".data, "0.5".data, "1.5".data, "2.5".data, "3.5".data] ++ extra) cls

/-- Regex fragment `(\w+)(-\d+)?` anchored: a nonempty word-character run,
optionally followed by `-` and digits. -/
def wordDashNum (rest : Str) : Bool :=
  let w := rest.takeWhile isWordCh
  !w.isEmpty &&
    (match rest.drop w.length with
     | [] => true
     | '-' :: ds => allDigits ds
     | _ => false)

/-- Lookahead word list of the `fontSize` pattern (text-align values). -/
def textAlignWords : List Str :=
  ["left".data, "center".data, "right".data, "justify".data, "start".data, "end".data]

/-- Lookahead word list of the `color` pattern (font-size named values plus
text-align values). -/
def colorExcludedWords : List Str :=
  ["xs".data, "sm".data, "base".data, "lg".data, "xl".data, "2xl".data,
   "3xl".data, "4xl".data, "5xl".data, "6xl".data, "7xl".data, "8xl".data,
   "9xl".data] ++ textAlignWords

/-- Negative lookahead `(?!(?:w1|w2|…)(?:\s|$))` applied to `rest`: true when
some listed word is a prefix of `rest` and is followed by whitespace or the
end of the string. -/
def lookaheadWordThenSpaceOrEnd (words : List Str) (rest : Str) : Bool :=
  words.any (fun w =>
    strStarts w rest &&
      (match rest.drop w.length with
       | [] => true
       | c :: _ => isSpaceCh c))

/-- `fontSize` pattern `^text-(?!(?:left|center|right|justify|start|end)(?:\s|$)).+$`. -/
def patFontSize (cls : Str) : Bool :=
  strStarts "text-".data cls &&
    (let rest := cls.drop 5
     !(lookaheadWordThenSpaceOrEnd textAlignWords rest)
       && !rest.isEmpty && rest.all (fun c => c != '\n'))

/-- `color` pattern `^text-(?!(?:xs|sm|…|end)(?:\s|$)).+$`. -/
def patColor (cls : Str) : Bool :=
  strStarts "text-".data cls &&
    (let rest := cls.drop 5
     !(lookaheadWordThenSpaceOrEnd colorExcludedWords rest)
       && !rest.isEmpty && rest.all (fun c => c != '\n'))

/-- Word list of the `backgroundColor` pattern's negative lookahead. -/
def bgColorExcludedWords : List Str :=
  ["auto".data, "cover".data, "contain".data, "bottom".data, "center".data,
   "left".data, "left-bottom".data, "left-top".data, "right".data,
   "right-bottom".data, "right-top".data, "top".data, "repeat".data,
   "no-repeat".data, "repeat-x".data, "repeat-y".data, "repeat-round".data,
   "repeat-space".data, "none".data, "gradient-to-t".data, "gradient-to-tr".data,
   "gradient-to-r".data, "gradient-to-br".data, "gradient-to-b".data,
   "gradient-to-bl".data, "gradient-to-l".data, "gradient-to-tl".data]

/-- `backgroundColor` pattern
`^bg-(?!(?:auto|…|gradient-to-tl)$)((\w+)(-\d+)?|\[.+\])$`. -/
def patBackgroundColor (cls : Str) : Bool :=
  strStarts "bg-".data cls &&
    (let rest := cls.drop 3
     !(bgColorExcludedWords.contains rest) && (wordDashNum rest || isArbitrary rest))

/-- `borderColor` pattern
`^border-(?!(?:solid|dashed|dotted|double|hidden|none)$)(?!t-|r-|b-|l-|x-|y-)((\w+)(-\d+)?|\[.+\])$`. -/
def patBorderColor (cls : Str) : Bool :=
  strStarts "border-".data cls &&
    (let rest := cls.drop 7
     !(["solid".data, "dashed".data, "dotted".data, "double".data,
        "hidden".data, "none".data].contains rest)
       && !(["t-".data, "r-".data, "b-".data, "l-".data, "x-".data,
             "y-".data].any (fun p => strStarts p rest))
       && (wordDashNum rest || isArbitrary rest))

/-- Pattern `^base(-\d+|-\[.+\])?$` for border widths (`border`, `border-t`, …). -/
def patBorderWidth (base : Str) (cls : Str) : Bool :=
  cls == base ||
    (strStarts (base ++ "-".data) cls &&
      (let rest := cls.drop (base.length + 1)
       allDigits rest || isArbitrary rest))

/-- Pattern `^base(-none|-sm|-md|-lg|-xl|-2xl|-3xl|-full|-\[.+\])?$` for
border radii (`rounded`, `rounded-tl`, …). -/
def patRadius (base : Str) (cls : Str) : Bool :=
  cls == base ||
    (strStarts (base ++ "-".data) cls &&
      (let rest := cls.drop (base.length + 1)
       isArbitrary rest ||
         ["none".data, "sm".data, "md".data, "lg".data, "xl".data,
          "2xl".data, "3xl".data, "full".data].contains rest))

/-- `boxShadow` pattern `^shadow(-none|-sm|-md|-lg|-xl|-2xl|-inner|-\[.+\])?$`. -/
def patBoxShadow (cls : Str) : Bool :=
  cls == "shadow".data ||
    (strStarts "shadow-".data cls &&
      (let rest := cls.drop 7
       isArbitrary rest ||
         ["none".data, "sm".data, "md".data, "lg".data, "xl".data,
          "2xl".data, "inner".data].contains rest))

/-- `width`/`height` suffix `(\[.+\]|\d+\/\d+|\d+|px|auto|full|screen|min|max|fit)`. -/
def patSizeSuffix (pfx : Str) (cls : Str) : Bool :=
  strStarts pfx cls &&
    (let rest := cls.drop pfx.length
     isArbitrary rest || allDigits rest
       || (let num := rest.takeWhile isDigitCh
           !num.isEmpty &&
             (match rest.drop num.length with
              | '/' :: ds => allDigits ds
              | _ => false))
       || ["px".data, "auto".data, "full".data, "screen".data, "min".data,
           "max".data, "fit".data].contains rest)

/-- `backgroundImage` pattern
`^bg-(none|gradient-to-t|…|gradient-to-tl|\[.+\])$`. -/
def patBackgroundImage (cls : Str) : Bool :=
  strStarts "bg-".data cls &&
    (let rest := cls.drop 3
     isArbitrary rest ||
       ["none".data, "gradient-to-t".data, "gradient-to-tr".data,
        "gradient-to-r".data, "gradient-to-br".data, "gradient-to-b".data,
        "gradient-to-bl".data, "gradient-to-l".data,
        "gradient-to-tl".data].contains rest)

/-- Source: `CLASS_PROPERTY_MAP` (tailwind-class-mapper.ts): every design
property paired with the recognizer for its class family, in source order.
Each JavaScript regex literal is embedded as a boolean recognizer. -/
def CLASS_PROPERTY_MAP : List (Str × (Str → Bool)) :=
  [ ("display".data, fun cls =>
      ["block".data, "inline-block".data, "inline".data, "flex".data,
       "inline-flex".data, "grid".data, "inline-grid".data, "hidden".data].contains cls),
    ("flexDirection".data, pfxAlt "flex-".data
      ["row".data, "row-reverse".data, "col".data, "col-reverse".data]),
    ("flexWrap".data, pfxAlt "flex-".data
      ["wrap".data, "wrap-reverse".data, "nowrap".data]),
    ("justifyContent".data, pfxAlt "justify-".data
      ["start".data, "end".data, "center".data, "between".data, "around".data,
       "evenly".data, "stretch".data]),
    ("alignItems".data, pfxAlt "items-".data
      ["start".data, "end".data, "center".data, "baseline".data, "stretch".data]),
    ("alignContent".data, pfxAlt "content-".data
      ["start".data, "end".data, "center".data, "between".data, "around".data,
       "evenly".data, "stretch".data]),
    ("gap".data, spacingPattern "gap-".data []),
    ("columnGap".data, spacingPattern "gap-x-".data []),
    ("rowGap".data, spacingPattern "gap-y-".data []),
    ("gridTemplateColumns".data, pfxArbNumAlt "grid-cols-".data
      ["none".data, "subgrid".data]),
    ("gridTemplateRows".data, pfxArbNumAlt "grid-rows-".data
      ["none".data, "subgrid".data]),
    ("padding".data, spacingPattern "p-".data []),
    ("paddingTop".data, spacingPattern "pt-".data []),
    ("paddingRight".data, spacingPattern "pr-".data []),
    ("paddingBottom".data, spacingPattern "pb-".data []),
    ("paddingLeft".data, spacingPattern "pl-".data []),
    ("margin".data, spacingPattern "m-".data ["auto".data]),
    ("marginTop".data, spacingPattern "mt-".data ["auto".data]),
    ("marginRight".data, spacingPattern "mr-".data ["auto".data]),
    ("marginBottom".data, spacingPattern "mb-".data ["auto".data]),
    ("marginLeft".data, spacingPattern "ml-".data ["auto".data]),
    ("width".data, patSizeSuffix "w-".data),
    ("height".data, patSizeSuffix "h-".data),
    ("minWidth".data, pfxArbNumAlt "min-w-".data
      ["px".data, "full".data, "min".data, "max".data, "fit".data]),
    ("minHeight".data, pfxArbNumAlt "min-h-".data
      ["px".data, "full".data, "screen".data, "min".data, "max".data, "fit".data]),
    ("maxWidth".data, fun cls =>
      strStarts "max-w-".data cls &&
        (let rest := cls.drop 6
         isArbitrary rest ||
           ["none".data, "xs".data, "sm".data, "md".data, "lg".data, "xl".data,
            "2xl".data, "3xl".data, "4xl".data, "5xl".data, "6xl".data,
            "7xl".data, "full".data, "min".data, "max".data, "fit".data,
            "prose".data, "screen-sm".data, "screen-md".data, "screen-lg".data,
            "screen-xl".data, "screen-2xl".data].contains rest)),
    ("maxHeight".data, pfxArbNumAlt "max-h-".data
      ["px".data, "full".data, "screen".data, "min".data, "max".data, "fit".data]),
    ("fontFamily".data, fun cls =>
      strStarts "font-".data cls &&
        (let rest := cls.drop 5
         isArbitrary rest || ["sans".data, "serif".data, "mono".data].contains rest)),
    ("fontSize".data, patFontSize),
    ("fontWeight".data, fun cls =>
      strStarts "font-".data cls &&
        (let rest := cls.drop 5
         isArbitrary rest ||
           ["thin".data, "extralight".data, "light".data, "normal".data,
            "medium".data, "semibold".data, "bold".data, "extrabold".data,
            "black".data].contains rest)),
    ("lineHeight".data, fun cls =>
      strStarts "leading-".data cls &&
        (let rest := cls.drop 8
         isArbitrary rest || allDigits rest ||
           ["none".data, "tight".data, "snug".data, "normal".data,
            "relaxed".data, "loose".data].contains rest)),
    ("letterSpacing".data, fun cls =>
      strStarts "tracking-".data cls &&
        (let rest := cls.drop 9
         isArbitrary rest ||
           ["tighter".data, "tight".data, "normal".data, "wide".data,
            "wider".data, "widest".data].contains rest)),
    ("textAlign".data, pfxAlt "text-".data textAlignWords),
    ("textTransform".data, fun cls =>
      ["uppercase".data, "lowercase".data, "capitalize".data,
       "normal-case".data].contains cls),
    ("textDecoration".data, fun cls =>
      ["underline".data, "overline".data, "line-through".data,
       "no-underline".data].contains cls),
    ("color".data, patColor),
    ("backgroundColor".data, patBackgroundColor),
    ("backgroundSize".data, fun cls =>
      strStarts "bg-".data cls &&
        (let rest := cls.drop 3
         isArbitrary rest ||
           ["auto".data, "cover".data, "contain".data].contains rest)),
    ("backgroundPosition".data, fun cls =>
      strStarts "bg-".data cls &&
        (let rest := cls.drop 3
         isArbitrary rest ||
           ["bottom".data, "center".data, "left".data, "left-bottom".data,
            "left-top".data, "right".data, "right-bottom".data,
            "right-top".data, "top".data].contains rest)),
    ("backgroundRepeat".data, pfxAlt "bg-".data
      ["repeat".data, "no-repeat".data, "repeat-x".data, "repeat-y".data,
       "repeat-round".data, "repeat-space".data]),
    ("backgroundImage".data, patBackgroundImage),
    ("borderWidth".data, patBorderWidth "border".data),
    ("borderTopWidth".data, patBorderWidth "border-t".data),
    ("borderRightWidth".data, patBorderWidth "border-r".data),
    ("borderBottomWidth".data, patBorderWidth "border-b".data),
    ("borderLeftWidth".data, patBorderWidth "border-l".data),
    ("borderStyle".data, pfxAlt "border-".data
      ["solid".data, "dashed".data, "dotted".data, "double".data,
       "hidden".data, "none".data]),
    ("borderColor".data, patBorderColor),
    ("borderRadius".data, patRadius "rounded".data),
    ("borderTopLeftRadius".data, patRadius "rounded-tl".data),
    ("borderTopRightRadius".data, patRadius "rounded-tr".data),
    ("borderBottomRightRadius".data, patRadius "rounded-br".data),
    ("borderBottomLeftRadius".data, patRadius "rounded-bl".data),
    ("opacity".data, pfxArbNumAlt "opacity-".data []),
    ("boxShadow".data, patBoxShadow),
    ("position".data, fun cls =>
      ["static".data, "fixed".data, "absolute".data, "relative".data,
       "sticky".data].contains cls),
    ("top".data, spacingPattern "top-".data ["auto".data]),
    ("right".data, spacingPattern "right-".data ["auto".data]),
    ("bottom".data, spacingPattern "bottom-".data ["auto".data]),
    ("left".data, spacingPattern "left-".data ["auto".data]),
    ("zIndex".data, fun cls =>
      strStarts "z-".data cls &&
        (let rest := cls.drop 2
         isArbitrary rest || allDigits rest || rest == "auto".data)) ]

/-- Source: `getConflictingClassPattern`: map lookup, `null` for unknown
properties. -/
def getConflictingClassPattern (property : Str) : Option (Str → Bool) :=
  match CLASS_PROPERTY_MAP.find? (fun e => e.1 == property) with
  | some e => some e.2
  | none => none

/-- Source: `extractArbitraryValue`: first match of the unanchored regex
`\[([^\]]+)\]`, scanning left to right. -/
def extractArbitraryValue (className : Str) : Option Str :=
  match className with
  | [] => none
  | c :: rest =>
      if c = '[' then
        let v := rest.takeWhile (fun x => x != ']')
        if !v.isEmpty && (match rest.drop v.length with | ']' :: _ => true | _ => false) then
          some v
        else extractArbitraryValue rest
      else extractArbitraryValue rest

example : extractArbitraryValue "text-[1.5rem]".data = some "1.5rem".data := by decide
example : extractArbitraryValue "text-[]x".data = none := by decide
example : extractArbitraryValue "a[][b]".data = some "b".data := by decide

/-- The filter callback of `removeConflictingClasses`: `true` keeps the
class.  Classes not matching the pattern are kept; matching `text-[...]`
classes are kept when the color heuristic assigns them to the other member of
the fontSize/color overload, and matching `bg-[...]` classes when the image
heuristic assigns them to the other member of the
backgroundColor/backgroundImage overload. -/
def removeKeep (pattern : Str → Bool) (property : Str) (cls : Str) : Bool :=
  if !(pattern cls) then true
  else
    -- text-[...] arbitrary values: fontSize vs color
    let textKeep :=
      if strStarts "text-[".data cls then
        match extractArbitraryValue cls with
        | some value =>
            let isColor := isColorValue value
            if property == "fontSize".data && isColor then some true
            else if property == "color".data && !isColor then some true
            else none
        | none => none
      else none
    match textKeep with
    | some b => b
    | none =>
      -- bg-[...] arbitrary values: backgroundColor vs backgroundImage
      let bgKeep :=
        if strStarts "bg-[".data cls then
          match extractArbitraryValue cls with
          | some value =>
              let isImage := isImageValue value
              if property == "backgroundColor".data && isImage then some true
              else if property == "backgroundImage".data && !isImage then some true
              else none
          | none => none
        else none
      match bgKeep with
      | some b => b
      | none => false

/-- Source: `removeConflictingClasses` (tailwind-class-mapper.ts). -/
def removeConflictingClasses (classes : List Str) (property : Str) : List Str :=
  match getConflictingClassPattern property with
  | none => classes
  | some pattern => classes.filter (removeKeep pattern property)

/-- Source: `replaceConflictingClasses`. -/
def replaceConflictingClasses (existingClasses : List Str) (property : Str)
    (newClass : Option Str) : List Str :=
  let filtered := removeConflictingClasses existingClasses property
  match newClass with
  | some cls => filtered ++ [cls]
  | none => filtered

/-- Source: `getAffectedProperties`: overloaded bracket shapes resolve to a
single property via the heuristics; all other classes collect every matching
pattern of `CLASS_PROPERTY_MAP` in source order. -/
def getAffectedProperties (className : Str) : List Str :=
  let generic := (CLASS_PROPERTY_MAP.filter (fun e => e.2 className)).map (fun e => e.1)
  if strStarts "text-[".data className then
    match extractArbitraryValue className with
    | some value => if isColorValue value then ["color".data] else ["fontSize".data]
    | none =>
      if strStarts "bg-[".data className then
        match extractArbitraryValue className with
        | some value =>
            if isImageValue value then ["backgroundImage".data] else ["backgroundColor".data]
        | none => generic
      else generic
  else if strStarts "bg-[".data className then
    match extractArbitraryValue className with
    | some value =>
        if isImageValue value then ["backgroundImage".data] else ["backgroundColor".data]
    | none => generic
  else generic

/-- Source: `removeConflictsForClass`: fold `removeConflictingClasses` over
the affected properties. -/
def removeConflictsForClass (existingClasses : List Str) (newClass : Str) : List Str :=
  (getAffectedProperties newClass).foldl
    (fun result property => removeConflictingClasses result property) existingClasses

example :
    removeConflictingClasses ["text-[1.5rem]".data, "text-[#ff0000]".data] "fontSize".data
      = ["text-[#ff0000]".data] := by decide
example :
    removeConflictingClasses ["text-[1.5rem]".data, "text-[#ff0000]".data] "color".data
      = ["text-[1.5rem]".data] := by decide
example : getAffectedProperties "text-[#ff0000]".data = ["color".data] := by decide
example : getAffectedProperties "w-full".data = ["width".data] := by decide
example : getAffectedProperties "bg-[url(x.png)]".data = ["backgroundImage".data] := by decide

/-- The eight categories of `Layer['design']` (see `DesignProperties` in the
type definitions). -/
inductive Category where
  | layout | typography | spacing | sizing | borders | backgrounds | effects | positioning
deriving DecidableEq, Repr

/-- Decimal parsing for the opacity conversion
`Math.round(parseFloat(value) * 100).toString()`.  `parseFloat` reads the
longest numeric prefix (optional sign, digits, optional dot and digits); the
model computes the exact decimal result, rounding half toward positive
infinity like `Math.round`; a value with no numeric prefix is `NaN`. -/
def parseFloatTimes100Round (value : Str) : Str :=
  let sign : Int := match value with | '-' :: _ => -1 | _ => 1
  let body := match value with | '-' :: r => r | '+' :: r => r | _ => value
  let intDigits := body.takeWhile isDigitCh
  let afterInt := body.drop intDigits.length
  let fracDigits := match afterInt with
    | '.' :: r => r.takeWhile isDigitCh
    | _ => []
  if intDigits.isEmpty && fracDigits.isEmpty then "NaN".data
  else
    let digitVal := fun (ds : Str) => ds.foldl (fun acc c => acc * 10 + (c.toNat - '0'.toNat)) 0
    let num : Int := sign * (Int.ofNat (digitVal intDigits) * (10 : Int) ^ fracDigits.length
      + Int.ofNat (digitVal fracDigits))
    let den : Int := (10 : Int) ^ fracDigits.length
    -- Math.round(num * 100 / den) with ties toward +infinity
    let rounded : Int := Int.fdiv (200 * num + den) (2 * den)
    (if rounded < 0 then "-".data else []) ++ (Nat.repr rounded.natAbs).data

/-- Source: `propertyToClass` (tailwind-class-mapper.ts): converts one
(category, property, value) triple to a class token, `null` when the value is
empty or the pair is unknown. -/
def propertyToClass (category : Category) (property : Str) (value : Str) : Option Str :=
  if value.isEmpty then none
  else
    match category with
    | .layout =>
      if property == "display".data then some value
      else if property == "flexDirection".data then
        if value == "row".data then some "flex-row".data
        else if value == "column".data then some "flex-col".data
        else if value == "row-reverse".data then some "flex-row-reverse".data
        else if value == "column-reverse".data then some "flex-col-reverse".data
        else some ("flex-".data ++ value)
      else if property == "flexWrap".data then
        if value == "wrap".data then some "flex-wrap".data
        else if value == "nowrap".data then some "flex-nowrap".data
        else if value == "wrap-reverse".data then some "flex-wrap-reverse".data
        else none
      else if property == "justifyContent".data then some ("justify-".data ++ value)
      else if property == "alignItems".data then some ("items-".data ++ value)
      else if property == "alignContent".data then some ("content-".data ++ value)
      else if property == "gap".data then some (formatMeasurementClass value "gap".data)
      else if property == "columnGap".data then some (formatMeasurementClass value "gap-x".data)
      else if property == "rowGap".data then some (formatMeasurementClass value "gap-y".data)
      else if property == "gridTemplateColumns".data then
        some ("grid-cols-[".data ++ value ++ "]".data)
      else if property == "gridTemplateRows".data then
        some ("grid-rows-[".data ++ value ++ "]".data)
      else none
    | .typography =>
      if property == "fontSize".data then some (formatMeasurementClass value "text".data)
      else if property == "fontWeight".data then
        some (if (match value with | c :: _ => isDigitCh c | [] => false) then
          "font-[".data ++ value ++ "]".data else "font-".data ++ value)
      else if property == "fontFamily".data then
        some (if value.any (fun c => c == ',' || isSpaceCh c)
            || (match value with | c :: _ => c == '"' || c == '\'' | [] => false) then
          "font-[".data ++ value ++ "]".data else "font-".data ++ value)
      else if property == "lineHeight".data then
        some (if (match value with | c :: _ => isDigitCh c | [] => false) then
          "leading-[".data ++ value ++ "]".data else "leading-".data ++ value)
      else if property == "letterSpacing".data then
        some (formatMeasurementClass value "tracking".data)
      else if property == "textAlign".data then some ("text-".data ++ value)
      else if property == "textTransform".data then
        some (if value == "none".data then "normal-case".data else value)
      else if property == "textDecoration".data then
        some (if value == "none".data then "no-underline".data else value)
      else if property == "color".data then
        some (if strStarts "#".data value || strStarts "rgb".data value then
          "text-[".data ++ value ++ "]".data else "text-".data ++ value)
      else none
    | .spacing =>
      let pfxOf := fun (p : Str) =>
        if p == "padding".data then some "p".data
        else if p == "paddingTop".data then some "pt".data
        else if p == "paddingRight".data then some "pr".data
        else if p == "paddingBottom".data then some "pb".data
        else if p == "paddingLeft".data then some "pl".data
        else if p == "margin".data then some "m".data
        else if p == "marginTop".data then some "mt".data
        else if p == "marginRight".data then some "mr".data
        else if p == "marginBottom".data then some "mb".data
        else if p == "marginLeft".data then some "ml".data
        else none
      match pfxOf property with
      | some pfx =>
          if strStarts "margin".data property then
            some (formatMeasurementClass value pfx ["auto".data])
          else some (formatMeasurementClass value pfx)
      | none => none
    | .sizing =>
      let pfxOf := fun (p : Str) =>
        if p == "width".data then some "w".data
        else if p == "height".data then some "h".data
        else if p == "minWidth".data then some "min-w".data
        else if p == "minHeight".data then some "min-h".data
        else if p == "maxWidth".data then some "max-w".data
        else if p == "maxHeight".data then some "max-h".data
        else none
      match pfxOf property with
      | some pfx =>
          if value == "100%".data then some (pfx ++ "-full".data)
          else some (formatMeasurementClass value pfx
            ["auto".data, "full".data, "screen".data, "min".data, "max".data, "fit".data])
      | none => none
    | .borders =>
      if property == "borderWidth".data then
        some (if value == "1px".data then "border".data
          else formatMeasurementClass value "border".data)
      else if property == "borderTopWidth".data then
        some (if value == "1px".data then "border-t".data
          else formatMeasurementClass value "border-t".data)
      else if property == "borderRightWidth".data then
        some (if value == "1px".data then "border-r".data
          else formatMeasurementClass value "border-r".data)
      else if property == "borderBottomWidth".data then
        some (if value == "1px".data then "border-b".data
          else formatMeasurementClass value "border-b".data)
      else if property == "borderLeftWidth".data then
        some (if value == "1px".data then "border-l".data
          else formatMeasurementClass value "border-l".data)
      else if property == "borderStyle".data then some ("border-".data ++ value)
      else if property == "borderColor".data then
        some (if strStarts "#".data value || strStarts "rgb".data value then
          "border-[".data ++ value ++ "]".data else "border-".data ++ value)
      else if property == "borderRadius".data then
        some (formatMeasurementClass value "rounded".data)
      else if property == "borderTopLeftRadius".data then
        some (formatMeasurementClass value "rounded-tl".data)
      else if property == "borderTopRightRadius".data then
        some (formatMeasurementClass value "rounded-tr".data)
      else if property == "borderBottomRightRadius".data then
        some (formatMeasurementClass value "rounded-br".data)
      else if property == "borderBottomLeftRadius".data then
        some (formatMeasurementClass value "rounded-bl".data)
      else none
    | .backgrounds =>
      if property == "backgroundColor".data then
        some (if strStarts "#".data value || strStarts "rgb".data value then
          "bg-[".data ++ value ++ "]".data else "bg-".data ++ value)
      else if property == "backgroundImage".data then
        some (if strStarts "url(".data value then "bg-[".data ++ value ++ "]".data
          else "bg-".data ++ value)
      else if property == "backgroundSize".data then some ("bg-".data ++ value)
      else if property == "backgroundPosition".data then some ("bg-".data ++ value)
      else if property == "backgroundRepeat".data then
        some (if value == "no-repeat".data then "bg-no-repeat".data
          else "bg-".data ++ value)
      else none
    | .effects =>
      if property == "opacity".data then
        let opacityValue := if value.contains '.' then parseFloatTimes100Round value else value
        some ("opacity-[".data ++ opacityValue ++ "%]".data)
      else if property == "boxShadow".data then
        if value == "none".data then some "shadow-none".data
        else if ["sm".data, "md".data, "lg".data, "xl".data, "2xl".data,
                 "inner".data].contains value then
          some ("shadow-".data ++ value)
        else some ("shadow-[".data ++ value ++ "]".data)
      else none
    | .positioning =>
      if property == "position".data then some value
      else if ["top".data, "right".data, "bottom".data, "left".data].contains property then
        some (formatMeasurementClass value property ["auto".data])
      else if property == "zIndex".data then
        if value == "auto".data then some "z-auto".data
        else some (if (match value with | c :: _ => isDigitCh c | [] => false) then
          "z-[".data ++ value ++ "]".data else "z-".data ++ value)
      else none

example : propertyToClass .layout "flexDirection".data "column".data = some "flex-col".data := by decide
example : propertyToClass .effects "opacity".data "0.5".data = some "opacity-[50%]".data := by decide
example : propertyToClass .sizing "width".data "100".data = some "w-[100px]".data := by decide
example : propertyToClass .typography "color".data "#ff0000".data = some "text-[#ff0000]".data := by decide
example : propertyToClass .backgrounds "backgroundSize".data "cover".data = some "bg-cover".data := by decide

/-- `LayoutDesign` from the type definitions (fields set by `classesToDesign`). -/
structure LayoutDesign where
  isActive : Option Bool := none
  display : Option Str := none
  flexDirection : Option Str := none
  justifyContent : Option Str := none
  alignItems : Option Str := none
  gap : Option Str := none
  gridTemplateColumns : Option Str := none
  gridTemplateRows : Option Str := none
deriving DecidableEq, Repr

/-- `TypographyDesign` from the type definitions. -/
structure TypographyDesign where
  isActive : Option Bool := none
  fontSize : Option Str := none
  fontWeight : Option Str := none
  fontFamily : Option Str := none
  lineHeight : Option Str := none
  letterSpacing : Option Str := none
  textAlign : Option Str := none
  textTransform : Option Str := none
  textDecoration : Option Str := none
  color : Option Str := none
deriving DecidableEq, Repr

/-- `SpacingDesign` from the type definitions. -/
structure SpacingDesign where
  isActive : Option Bool := none
  margin : Option Str := none
  marginTop : Option Str := none
  marginRight : Option Str := none
  marginBottom : Option Str := none
  marginLeft : Option Str := none
  padding : Option Str := none
  paddingTop : Option Str := none
  paddingRight : Option Str := none
  paddingBottom : Option Str := none
  paddingLeft : Option Str := none
deriving DecidableEq, Repr

/-- `SizingDesign` from the type definitions. -/
structure SizingDesign where
  isActive : Option Bool := none
  width : Option Str := none
  height : Option Str := none
  minWidth : Option Str := none
  minHeight : Option Str := none
  maxWidth : Option Str := none
  maxHeight : Option Str := none
deriving DecidableEq, Repr

/-- `BordersDesign` from the type definitions. -/
structure BordersDesign where
  isActive : Option Bool := none
  borderWidth : Option Str := none
  borderStyle : Option Str := none
  borderColor : Option Str := none
  borderRadius : Option Str := none
  borderTopLeftRadius : Option Str := none
  borderTopRightRadius : Option Str := none
  borderBottomLeftRadius : Option Str := none
  borderBottomRightRadius : Option Str := none
deriving DecidableEq, Repr

/-- `BackgroundsDesign` from the type definitions. -/
structure BackgroundsDesign where
  isActive : Option Bool := none
  backgroundColor : Option Str := none
  backgroundImage : Option Str := none
  backgroundSize : Option Str := none
  backgroundPosition : Option Str := none
  backgroundRepeat : Option Str := none
deriving DecidableEq, Repr

/-- `EffectsDesign` from the type definitions. -/
structure EffectsDesign where
  isActive : Option Bool := none
  opacity : Option Str := none
  boxShadow : Option Str := none
  filter : Option Str := none
  backdropFilter : Option Str := none
deriving DecidableEq, Repr

/-- `PositioningDesign` from the type definitions. -/
structure PositioningDesign where
  isActive : Option Bool := none
  position : Option Str := none
  top : Option Str := none
  right : Option Str := none
  bottom : Option Str := none
  left : Option Str := none
  zIndex : Option Str := none
deriving DecidableEq, Repr

/-- `DesignProperties` from the type definitions: all eight category keys are
optional in the type. -/
structure DesignProperties where
  layout : Option LayoutDesign := none
  typography : Option TypographyDesign := none
  spacing : Option SpacingDesign := none
  sizing : Option SizingDesign := none
  borders : Option BordersDesign := none
  backgrounds : Option BackgroundsDesign := none
  effects : Option EffectsDesign := none
  positioning : Option PositioningDesign := none
deriving DecidableEq, Repr

/-- The working design object of `classesToDesign`: the function initializes
all eight categories with empty objects, so during the walk each category is
present. -/
structure DesignAcc where
  layout : LayoutDesign := {}
  typography : TypographyDesign := {}
  spacing : SpacingDesign := {}
  sizing : SizingDesign := {}
  borders : BordersDesign := {}
  backgrounds : BackgroundsDesign := {}
  effects : EffectsDesign := {}
  positioning : PositioningDesign := {}
deriving DecidableEq, Repr

/-- The `===== LAYOUT =====` section of `classesToDesign`. -/
def processLayout (l : LayoutDesign) (cls : Str) : LayoutDesign :=
  let l := if cls == "block".data then { l with display := some "block".data } else l
  let l := if cls == "inline-block".data then { l with display := some "inline-block".data } else l
  let l := if cls == "inline".data then { l with display := some "inline".data } else l
  let l := if cls == "flex".data then { l with display := some "flex".data } else l
  let l := if cls == "inline-flex".data then { l with display := some "inline-flex".data } else l
  let l := if cls == "grid".data then { l with display := some "grid".data } else l
  let l := if cls == "inline-grid".data then { l with display := some "inline-grid".data } else l
  let l := if cls == "hidden".data then { l with display := some "hidden".data } else l
  let l := if cls == "flex-row".data then { l with flexDirection := some "row".data } else l
  let l := if cls == "flex-row-reverse".data then { l with flexDirection := some "row-reverse".data } else l
  let l := if cls == "flex-col".data then { l with flexDirection := some "column".data } else l
  let l := if cls == "flex-col-reverse".data then { l with flexDirection := some "column-reverse".data } else l
  let l := if strStarts "justify-".data cls then
      (let value := cls.drop 8
       if ["start".data, "end".data, "center".data, "between".data, "around".data,
           "evenly".data, "stretch".data].contains value then
         { l with justifyContent := some value } else l)
    else l
  let l := if strStarts "items-".data cls then
      (let value := cls.drop 6
       if ["start".data, "end".data, "center".data, "baseline".data,
           "stretch".data].contains value then
         { l with alignItems := some value } else l)
    else l
  let l := if strStarts "gap-[".data cls then
      (match extractArbitraryValue cls with
       | some value => { l with gap := some value }
       | none => l)
    else l
  let l := if strStarts "grid-cols-[".data cls then
      (match extractArbitraryValue cls with
       | some value => { l with gridTemplateColumns := some value }
       | none => l)
    else l
  let l := if strStarts "grid-rows-[".data cls then
      (match extractArbitraryValue cls with
       | some value => { l with gridTemplateRows := some value }
       | none => l)
    else l
  l

/-- First half of the `===== TYPOGRAPHY =====` section after the color early
return: font size, font weight. -/
def processTypographyFont (t : TypographyDesign) (cls : Str) : TypographyDesign :=
  -- Font Size - only reached when the class was not classified as a color
  let t := if strStarts "text-[".data cls then
      (match extractArbitraryValue cls with
       | some value => { t with fontSize := some value }
       | none => t)
    else t
  let t := if strStarts "font-[".data cls && !strIncludes "sans".data cls
      && !strIncludes "serif".data cls && !strIncludes "mono".data cls then
      (match extractArbitraryValue cls with
       | some value => { t with fontWeight := some value }
       | none => t)
    else t
  let t := if cls == "font-thin".data then { t with fontWeight := some "100".data } else t
  let t := if cls == "font-extralight".data then { t with fontWeight := some "200".data } else t
  let t := if cls == "font-light".data then { t with fontWeight := some "300".data } else t
  let t := if cls == "font-normal".data then { t with fontWeight := some "400".data } else t
  let t := if cls == "font-medium".data then { t with fontWeight := some "500".data } else t
  let t := if cls == "font-semibold".data then { t with fontWeight := some "600".data } else t
  let t := if cls == "font-bold".data then { t with fontWeight := some "700".data } else t
  let t := if cls == "font-extrabold".data then { t with fontWeight := some "800".data } else t
  let t := if cls == "font-black".data then { t with fontWeight := some "900".data } else t
  t

/-- Second part of the typography section: font family. -/
def processTypographyFamily (t : TypographyDesign) (cls : Str) : TypographyDesign :=
  let t := if strStarts "font-[".data cls && (strIncludes "sans".data cls
      || strIncludes "serif".data cls || strIncludes "mono".data cls
      || strIncludes ",".data cls) then
      (match extractArbitraryValue cls with
       | some value => { t with fontFamily := some value }
       | none => t)
    else t
  let t := if cls == "font-sans".data then { t with fontFamily := some "sans-serif".data } else t
  let t := if cls == "font-serif".data then { t with fontFamily := some "serif".data } else t
  let t := if cls == "font-mono".data then { t with fontFamily := some "monospace".data } else t
  t

/-- Third part of the typography section: text align, transform, decoration,
line height, letter spacing. -/
def processTypographyText (t : TypographyDesign) (cls : Str) : TypographyDesign :=
  let t := if cls == "text-left".data then { t with textAlign := some "left".data } else t
  let t := if cls == "text-center".data then { t with textAlign := some "center".data } else t
  let t := if cls == "text-right".data then { t with textAlign := some "right".data } else t
  let t := if cls == "text-justify".data then { t with textAlign := some "justify".data } else t
  let t := if cls == "uppercase".data then { t with textTransform := some "uppercase".data } else t
  let t := if cls == "lowercase".data then { t with textTransform := some "lowercase".data } else t
  let t := if cls == "capitalize".data then { t with textTransform := some "capitalize".data } else t
  let t := if cls == "normal-case".data then { t with textTransform := some "none".data } else t
  let t := if cls == "underline".data then { t with textDecoration := some "underline".data } else t
  let t := if cls == "line-through".data then { t with textDecoration := some "line-through".data } else t
  let t := if cls == "no-underline".data then { t with textDecoration := some "none".data } else t
  let t := if strStarts "leading-[".data cls then
      (match extractArbitraryValue cls with
       | some value => { t with lineHeight := some value }
       | none => t)
    else t
  let t := if strStarts "tracking-[".data cls then
      (match extractArbitraryValue cls with
       | some value => { t with letterSpacing := some value }
       | none => t)
    else t
  t

/-- The `===== TYPOGRAPHY =====` section after the color early return
(statement order as in the source, split in three parts above). -/
def processTypographyRest (t : TypographyDesign) (cls : Str) : TypographyDesign :=
  processTypographyText (processTypographyFamily (processTypographyFont t cls) cls) cls

/-- The `===== SPACING =====` section (two if/else-if chains). -/
def processSpacing (s : SpacingDesign) (cls : Str) : SpacingDesign :=
  let setArb := fun (upd : SpacingDesign → Str → SpacingDesign) =>
    match extractArbitraryValue cls with
    | some value => upd s value
    | none => s
  let s :=
    if strStarts "p-[".data cls then setArb (fun s v => { s with padding := some v })
    else if strStarts "pt-[".data cls then setArb (fun s v => { s with paddingTop := some v })
    else if strStarts "pr-[".data cls then setArb (fun s v => { s with paddingRight := some v })
    else if strStarts "pb-[".data cls then setArb (fun s v => { s with paddingBottom := some v })
    else if strStarts "pl-[".data cls then setArb (fun s v => { s with paddingLeft := some v })
    else s
  let setArb2 := fun (upd : SpacingDesign → Str → SpacingDesign) =>
    match extractArbitraryValue cls with
    | some value => upd s value
    | none => s
  if strStarts "m-[".data cls then setArb2 (fun s v => { s with margin := some v })
  else if strStarts "mt-[".data cls then setArb2 (fun s v => { s with marginTop := some v })
  else if strStarts "mr-[".data cls then setArb2 (fun s v => { s with marginRight := some v })
  else if strStarts "mb-[".data cls then setArb2 (fun s v => { s with marginBottom := some v })
  else if strStarts "ml-[".data cls then setArb2 (fun s v => { s with marginLeft := some v })
  else s

/-- The `===== SIZING =====` section. -/
def processSizing (z : SizingDesign) (cls : Str) : SizingDesign :=
  let z := if strStarts "w-[".data cls then
      (match extractArbitraryValue cls with
       | some value => { z with width := some value } | none => z)
    else z
  let z := if strStarts "h-[".data cls then
      (match extractArbitraryValue cls with
       | some value => { z with height := some value } | none => z)
    else z
  let z := if strStarts "min-w-[".data cls then
      (match extractArbitraryValue cls with
       | some value => { z with minWidth := some value } | none => z)
    else z
  let z := if strStarts "min-h-[".data cls then
      (match extractArbitraryValue cls with
       | some value => { z with minHeight := some value } | none => z)
    else z
  let z := if strStarts "max-w-[".data cls then
      (match extractArbitraryValue cls with
       | some value => { z with maxWidth := some value } | none => z)
    else z
  let z := if strStarts "max-h-[".data cls then
      (match extractArbitraryValue cls with
       | some value => { z with maxHeight := some value } | none => z)
    else z
  z

/-- The `===== BORDERS =====` section. -/
def processBorders (b : BordersDesign) (cls : Str) : BordersDesign :=
  let setArb := fun (b : BordersDesign) (upd : BordersDesign → Str → BordersDesign) =>
    match extractArbitraryValue cls with
    | some value => upd b value
    | none => b
  let b :=
    if strStarts "rounded-[".data cls then
      setArb b (fun b v => { b with borderRadius := some v })
    else if strStarts "rounded-tl-[".data cls then
      setArb b (fun b v => { b with borderTopLeftRadius := some v })
    else if strStarts "rounded-tr-[".data cls then
      setArb b (fun b v => { b with borderTopRightRadius := some v })
    else if strStarts "rounded-br-[".data cls then
      setArb b (fun b v => { b with borderBottomRightRadius := some v })
    else if strStarts "rounded-bl-[".data cls then
      setArb b (fun b v => { b with borderBottomLeftRadius := some v })
    else b
  let b := if strStarts "border-[".data cls && !strIncludes "#".data cls
      && !strIncludes "rgb".data cls then
      setArb b (fun b v => { b with borderWidth := some v })
    else b
  let b := if cls == "border-solid".data then { b with borderStyle := some "solid".data } else b
  let b := if cls == "border-dashed".data then { b with borderStyle := some "dashed".data } else b
  let b := if cls == "border-dotted".data then { b with borderStyle := some "dotted".data } else b
  let b := if cls == "border-double".data then { b with borderStyle := some "double".data } else b
  let b := if cls == "border-none".data then { b with borderStyle := some "none".data } else b
  let b := if strStarts "border-[#".data cls || strStarts "border-[rgb".data cls then
      setArb b (fun b v => { b with borderColor := some v })
    else b
  b

/-- The `===== BACKGROUNDS =====` section. -/
def processBackgrounds (g : BackgroundsDesign) (cls : Str) : BackgroundsDesign :=
  if strStarts "bg-[#".data cls || strStarts "bg-[rgb".data cls then
    match extractArbitraryValue cls with
    | some value => { g with backgroundColor := some value }
    | none => g
  else g

/-- The `===== EFFECTS =====` section. -/
def processEffects (e : EffectsDesign) (cls : Str) : EffectsDesign :=
  let e := if strStarts "opacity-[".data cls then
      (match extractArbitraryValue cls with
       | some value => { e with opacity := some value } | none => e)
    else e
  let e := if strStarts "shadow-[".data cls then
      (match extractArbitraryValue cls with
       | some value => { e with boxShadow := some value } | none => e)
    else e
  e

/-- The `===== POSITIONING =====` section. -/
def processPositioning (p : PositioningDesign) (cls : Str) : PositioningDesign :=
  let p := if cls == "static".data then { p with position := some "static".data } else p
  let p := if cls == "relative".data then { p with position := some "relative".data } else p
  let p := if cls == "absolute".data then { p with position := some "absolute".data } else p
  let p := if cls == "fixed".data then { p with position := some "fixed".data } else p
  let p := if cls == "sticky".data then { p with position := some "sticky".data } else p
  let p := if strStarts "top-[".data cls then
      (match extractArbitraryValue cls with
       | some value => { p with top := some value } | none => p)
    else p
  let p := if strStarts "right-[".data cls then
      (match extractArbitraryValue cls with
       | some value => { p with right := some value } | none => p)
    else p
  let p := if strStarts "bottom-[".data cls then
      (match extractArbitraryValue cls with
       | some value => { p with bottom := some value } | none => p)
    else p
  let p := if strStarts "left-[".data cls then
      (match extractArbitraryValue cls with
       | some value => { p with left := some value } | none => p)
    else p
  let p := if strStarts "z-[".data cls then
      (match extractArbitraryValue cls with
       | some value => { p with zIndex := some value } | none => p)
    else p
  p

/-- Everything after the typography color check for one class. -/
def processAfterColor (d : DesignAcc) (cls : Str) : DesignAcc :=
  let d := { d with typography := processTypographyRest d.typography cls }
  let d := { d with spacing := processSpacing d.spacing cls }
  let d := { d with sizing := processSizing d.sizing cls }
  let d := { d with borders := processBorders d.borders cls }
  let d := { d with backgrounds := processBackgrounds d.backgrounds cls }
  let d := { d with effects := processEffects d.effects cls }
  { d with positioning := processPositioning d.positioning cls }

/-- The whole per-class body of `classesToDesign` after prefix handling: the
layout section, then the color check (whose hit skips all later sections via
the source's early `return`), then the remaining sections. -/
def processBase (d : DesignAcc) (cls : Str) : DesignAcc :=
  let d := { d with layout := processLayout d.layout cls }
  if strStarts "text-[".data cls then
    match extractArbitraryValue cls with
    | some value =>
        if isColorValue value then
          { d with typography := { d.typography with color := some value } }
        else processAfterColor d cls
    | none => processAfterColor d cls
  else processAfterColor d cls

/-- The interaction-state prefixes, in the order of the skip regex
`^(hover|focus|active|disabled|visited):`. -/
def statePfxList : List Str :=
  ["hover:".data, "focus:".data, "active:".data, "disabled:".data, "visited:".data]

/-- `true` when some prefix of the list starts the class. -/
def startsWithAny (ps : List Str) (cls : Str) : Bool := ps.any (fun p => strStarts p cls)

/-- First match of the breakpoint alternation `^(max-lg|max-md|lg|md):`,
returning the remainder after the prefix. -/
def firstBpSplit (cls : Str) : Option Str :=
  if strStarts "max-lg:".data cls then some (cls.drop 7)
  else if strStarts "max-md:".data cls then some (cls.drop 7)
  else if strStarts "lg:".data cls then some (cls.drop 3)
  else if strStarts "md:".data cls then some (cls.drop 3)
  else none

/-- `cls.replace(/^(max-lg|max-md|lg|md):/, '')`. -/
def stripBp (cls : Str) : Str := (firstBpSplit cls).getD cls

/-- The two skip tests of `classesToDesign`: a bare state prefix, or a
breakpoint prefix followed by a state prefix. -/
def stateSkipped (cls : Str) : Bool :=
  startsWithAny statePfxList cls ||
    (match firstBpSplit cls with
     | some rest => startsWithAny statePfxList rest
     | none => false)

/-- The per-class step of `classesToDesign`: skip state-specific classes,
strip a breakpoint prefix, then run the parsing body. -/
def processClass (d : DesignAcc) (cls : Str) : DesignAcc :=
  if startsWithAny statePfxList cls then d
  else if (match firstBpSplit cls with
           | some rest => startsWithAny statePfxList rest
           | none => false) then d
  else processBase d (stripBp cls)

/-- Source: `classesToDesign` (tailwind-class-mapper.ts), on an input given
as a class array.  The result carries all eight category keys. -/
def classesToDesign (classes : List Str) : DesignProperties :=
  let acc := classes.foldl processClass {}
  { layout := some acc.layout, typography := some acc.typography,
    spacing := some acc.spacing, sizing := some acc.sizing,
    borders := some acc.borders, backgrounds := some acc.backgrounds,
    effects := some acc.effects, positioning := some acc.positioning }

example :
    (classesToDesign ["w-[100px]".data]).sizing = some { width := some "100px".data } := by decide
example :
    (classesToDesign ["text-[#ff0000]".data]).typography
      = some { color := some "#ff0000".data } := by decide
example :
    (classesToDesign ["text-[1.5rem]".data]).typography
      = some { fontSize := some "1.5rem".data } := by decide
example :
    (classesToDesign ["hover:w-[100px]".data]).sizing = some {} := by decide
example :
    (classesToDesign ["max-md:m-[10px]".data]).spacing
      = some { margin := some "10px".data } := by decide
example :
    (classesToDesign ["max-md:hover:m-[10px]".data]).spacing = some {} := by decide

/-- Breakpoints of the codec (`type Breakpoint` in tailwind-class-mapper.ts). -/
inductive Breakpoint where
  | mobile | tablet | desktop
deriving DecidableEq, Repr

/-- UI interaction states (`type UIState` in the type definitions). -/
inductive UIState where
  | neutral | hover | focus | active | disabled | current
deriving DecidableEq, Repr

/-- Source: `BREAKPOINT_CONFIG` (tailwind-class-mapper.ts), the `prefix`
field.  The config is declared "Mobile-First": mobile has no prefix, tablet
is `md:`, desktop is `lg:`.  Source name: `getBreakpointPrefix`
(`BREAKPOINT_CONFIG[breakpoint].prefix`). -/
def getBreakpointPfx (breakpoint : Breakpoint) : Str :=
  match breakpoint with
  | .mobile => "".data
  | .tablet => "md:".data
  | .desktop => "lg:".data

/-- Source: `UI_STATE_CONFIG` / `getUIStatePrefix`: the `prefix` field per
state; `current` uses the `visited:` prefix. -/
def getUIStatePfx (state : UIState) : Str :=
  match state with
  | .neutral => "".data
  | .hover => "hover:".data
  | .focus => "focus:".data
  | .active => "active:".data
  | .disabled => "disabled:".data
  | .current => "visited:".data

/-- Result type of `parseBreakpointClass`. -/
structure ParsedBreakpointClass where
  breakpoint : Breakpoint
  baseClass : Str
deriving DecidableEq, Repr

/-- Source: `parseBreakpointClass` (Desktop-First): `max-md:` is mobile,
`max-lg:` is tablet, legacy `lg:`/`md:` map to desktop/tablet, no prefix is
desktop. -/
def parseBreakpointClass (className : Str) : ParsedBreakpointClass :=
  if strStarts "max-md:".data className then
    { breakpoint := .mobile, baseClass := className.drop 7 }
  else if strStarts "max-lg:".data className then
    { breakpoint := .tablet, baseClass := className.drop 7 }
  else if strStarts "lg:".data className then
    { breakpoint := .desktop, baseClass := className.drop 3 }
  else if strStarts "md:".data className then
    { breakpoint := .tablet, baseClass := className.drop 3 }
  else
    { breakpoint := .desktop, baseClass := className }

/-- Source: `addBreakpointPrefix`: prepend the breakpoint's configured
prefix (renamed `addBreakpointPfx`). -/
def addBreakpointPfx (breakpoint : Breakpoint) (className : Str) : Str :=
  let pfx := getBreakpointPfx breakpoint
  if !pfx.isEmpty then pfx ++ className else className

/-- Source: `shouldIncludeClassForProperty`: the pattern must match, and for
the overloaded `text-[...]`/`bg-[...]` shapes the heuristic must assign the
class to the requested property. -/
def shouldIncludeClassForProperty (className : Str) (property : Str)
    (pattern : Str → Bool) : Bool :=
  if !(pattern className) then false
  else
    let textExcluded :=
      if strStarts "text-[".data className then
        match extractArbitraryValue className with
        | some value =>
            let isColor := isColorValue value
            (property == "fontSize".data && isColor)
              || (property == "color".data && !isColor)
        | none => false
      else false
    if textExcluded then false
    else
      let bgExcluded :=
        if strStarts "bg-[".data className then
          match extractArbitraryValue className with
          | some value =>
              let isImage := isImageValue value
              (property == "backgroundColor".data && isImage)
                || (property == "backgroundImage".data && !isImage)
          | none => false
        else false
      if bgExcluded then false else true

/-- Result type of `getInheritedValue`. -/
structure InheritedValue where
  value : Option Str
  source : Option Breakpoint
deriving DecidableEq, Repr

/-- JS truthiness of the running `lastValue` (`null` and `''` are falsy). -/
def strOptFalsy (v : Option Str) : Bool :=
  match v with
  | none => true
  | some s => s.isEmpty

/-- One step of `getInheritedValue`'s loop over the inheritance chain. -/
def inheritedStep (classes : List Str) (property : Str) (pattern : Str → Bool)
    (currentUIState : UIState) (acc : InheritedValue) (breakpoint : Breakpoint) :
    InheritedValue :=
  let bpPfx := getBreakpointPfx breakpoint
  let statePfx := getUIStatePfx currentUIState
  -- state-specific candidate (only when not neutral)
  let acc :=
    if currentUIState != .neutral then
      let fullPfx := bpPfx ++ statePfx
      match classes.find? (fun cls =>
        let withPfx := if !bpPfx.isEmpty then strStarts fullPfx cls
          else strStarts statePfx cls
        if !withPfx then false
        else shouldIncludeClassForProperty (cls.drop fullPfx.length) property pattern) with
      | some stateClass =>
          { value := some (stateClass.drop fullPfx.length), source := some breakpoint }
      | none => acc
    else acc
  -- neutral candidate at this breakpoint (always checked)
  let neutralClass := classes.find? (fun cls =>
    if !bpPfx.isEmpty then
      if !(strStarts bpPfx cls) then false
      else
        let afterBp := cls.drop bpPfx.length
        if startsWithAny statePfxList afterBp then false
        else shouldIncludeClassForProperty afterBp property pattern
    else
      if startsWithAny ("max-lg:".data :: "max-md:".data :: statePfxList) cls then false
      else shouldIncludeClassForProperty cls property pattern)
  match neutralClass with
  | some cls =>
      let baseClass := if !bpPfx.isEmpty then cls.drop bpPfx.length else cls
      if currentUIState == .neutral then
        { value := some baseClass, source := some breakpoint }
      else if strOptFalsy acc.value then
        { value := some baseClass, source := some breakpoint }
      else acc
  | none => acc

/-- Source: `getInheritedValue` (tailwind-class-mapper.ts): walk the
desktop-first inheritance chain, keeping the last candidate found, with
neutral classes taken as overriding in the neutral state but only as
fallback in a specific state. -/
def getInheritedValue (classes : List Str) (property : Str)
    (currentBreakpoint : Breakpoint) (currentUIState : UIState := .neutral) :
    InheritedValue :=
  match getConflictingClassPattern property with
  | none => { value := none, source := none }
  | some pattern =>
    let inheritanceChain : List Breakpoint :=
      match currentBreakpoint with
      | .mobile => [.desktop, .tablet, .mobile]
      | .tablet => [.desktop, .tablet]
      | .desktop => [.desktop]
    inheritanceChain.foldl
      (inheritedStep classes property pattern currentUIState)
      { value := none, source := none }

example : getBreakpointPfx .desktop = "lg:".data := by decide
example :
    getInheritedValue ["w-[100px]".data, "max-lg:w-[50px]".data] "width".data .mobile .neutral
      = { value := some "w-[100px]".data, source := some .mobile } := by decide
example :
    getInheritedValue ["bg-red-500".data, "hover:bg-blue-500".data]
        "backgroundColor".data .desktop .hover
      = { value := none, source := none } := by decide
example :
    getInheritedValue ["bg-red-500".data, "hover:bg-blue-500".data]
        "backgroundColor".data .desktop .neutral
      = { value := none, source := none } := by decide

/-- The body of the `for` loop of `filterClassesByBreakpoint`
(canvas-renderer.js): base classes are always kept; mobile keeps nothing
else; tablet additionally keeps `md:` classes; desktop keeps `md:` and `lg:`
classes. -/
def filterClassesLoop (breakpoint : Breakpoint) : List Str → List Str
  | [] => []
  | cls :: rest =>
    let hasMd := strStarts "md:".data cls || strIncludes " md:".data cls
    let hasLg := strStarts "lg:".data cls || strIncludes " lg:".data cls
    if !hasMd && !hasLg then cls :: filterClassesLoop breakpoint rest
    else
      match breakpoint with
      | .mobile => filterClassesLoop breakpoint rest
      | .tablet =>
          if hasMd && !hasLg then cls :: filterClassesLoop breakpoint rest
          else filterClassesLoop breakpoint rest
      | .desktop =>
          if hasMd || hasLg then cls :: filterClassesLoop breakpoint rest
          else filterClassesLoop breakpoint rest

/-- Source: `filterClassesByBreakpoint` (canvas-renderer.js), documented as
"Mobile-First approach": split on spaces, keep the classes allowed at the
breakpoint, join with spaces. -/
def filterClassesByBreakpoint (classesString : Str) (breakpoint : Breakpoint) : Str :=
  if classesString.isEmpty then classesString
  else
    let classArray := (classesString.splitOn ' ').filter (fun t => !t.isEmpty)
    List.intercalate " ".data (filterClassesLoop breakpoint classArray)

example :
    filterClassesByBreakpoint "md:w-[50px] lg:w-[100px]".data .mobile = "".data := by decide
example :
    filterClassesByBreakpoint "w-[10px] md:w-[50px]".data .tablet
      = "w-[10px] md:w-[50px]".data := by decide

/-- Opening bracket of the inline-variable placeholder regex
`<ycode-inline-variable id="([^"]+)"><\/ycode-inline-variable>`, up to the
opening quote of the id. -/
def inlineVarOpen : Str := "<ycode-inline-variable id=\"".data

/-- Closing part of the placeholder regex, from the closing quote of the id. -/
def inlineVarClose : Str := "\"></ycode-inline-variable>".data

/-- A full placeholder marker for a given variable id. -/
def inlineVarMarker (variableId : Str) : Str :=
  inlineVarOpen ++ variableId ++ inlineVarClose

/-- Try to match the placeholder regex at the current position: the opening
literal, a nonempty run of non-quote characters (the id), and the closing
literal; returns the id and the remainder. -/
def matchInlineVar (s : Str) : Option (Str × Str) :=
  if inlineVarOpen.isPrefixOf s then
    let rest1 := s.drop inlineVarOpen.length
    let vid := rest1.takeWhile (fun c => c != '"')
    if vid.isEmpty then none
    else
      let rest2 := rest1.drop vid.length
      if inlineVarClose.isPrefixOf rest2 then some (vid, rest2.drop inlineVarClose.length)
      else none
  else none

/-- `resolvedText.replace(regex, fn)` with the global placeholder regex:
scan left to right, replacing every placeholder by `resolve id` and
continuing after the replaced text.  Structured with explicit fuel (the
input length bounds the number of steps). -/
def replaceInlineVarsFuel (resolve : Str → Str) : Nat → Str → Str
  | 0, s => s
  | _ + 1, [] => []
  | fuel + 1, c :: cs =>
    match matchInlineVar (c :: cs) with
    | some (vid, rest) => resolve vid ++ replaceInlineVarsFuel resolve fuel rest
    | none => c :: replaceInlineVarsFuel resolve fuel cs

/-- The replacement entry point, with enough fuel for the whole string. -/
def replaceInlineVars (resolve : Str → Str) (s : Str) : Str :=
  replaceInlineVarsFuel resolve s.length s

/-- Scan for the closing literal of the tag-stripping regex
`<ycode-inline-variable[^>]*>.*?<\/ycode-inline-variable>`: the lazy `.*?`
may skip any non-newline characters up to the closing literal. -/
def findInlineVarEnd : Str → Option Str
  | [] => none
  | c :: cs =>
    if ("</ycode-inline-variable>".data).isPrefixOf (c :: cs) then
      some ((c :: cs).drop 24)
    else if c == '\n' then none
    else findInlineVarEnd cs

/-- Try to match the tag-stripping regex at the current position. -/
def matchInlineTag (s : Str) : Option Str :=
  if ("<ycode-inline-variable".data).isPrefixOf s then
    let rest1 := s.drop 22
    let attrs := rest1.takeWhile (fun c => c != '>')
    match rest1.drop attrs.length with
    | '>' :: rest2 => findInlineVarEnd rest2
    | _ => none
  else none

/-- `text.replace(/<ycode-inline-variable[^>]*>.*?<\/ycode-inline-variable>/g, '')`. -/
def stripInlineTagsFuel : Nat → Str → Str
  | 0, s => s
  | _ + 1, [] => []
  | fuel + 1, c :: cs =>
    match matchInlineTag (c :: cs) with
    | some rest => stripInlineTagsFuel fuel rest
    | none => c :: stripInlineTagsFuel fuel cs

/-- Entry point of the tag-stripping replacement. -/
def stripInlineTags (s : Str) : Str := stripInlineTagsFuel s.length s

/-- `variable.data` of an inline or field variable (`{ field_id }`). -/
structure VariableData where
  field_id : Str
deriving DecidableEq, Repr

/-- One entry of `inlineContent.variables` (`{ type, data }`). -/
structure VariableEntry where
  type : Str
  data : Option VariableData := none
deriving DecidableEq, Repr

/-- `layer.variables.text`: inline rich-text content with a template string
and a variable table keyed by variable id (`inlineContent.variables` in the
source; the field is called `varMap` here because `variables` is reserved in
Lean). -/
structure InlineContent where
  data : Str := []
  varMap : Option (List (Str × VariableEntry)) := none
deriving DecidableEq, Repr

/-- `layer.text` is either a plain string or a field-variable object
(`{ type: 'field', data: { field_id } }`). -/
inductive TextValue where
  | str (s : Str)
  | fieldVar (type : Str) (data : Option VariableData)
deriving DecidableEq, Repr

/-- The `variables` object of a layer (only the `text` binding is used by
`getText`). -/
structure LayerVariables where
  text : Option InlineContent := none
deriving DecidableEq, Repr

/-- The slice of a renderer layer consumed by `getText`
(`layer.variables` is called `varBindings` here, as `variables` is reserved
in Lean). -/
structure CanvasLayer where
  text : Option TextValue := none
  content : Option Str := none
  varBindings : Option LayerVariables := none
deriving DecidableEq, Repr

/-- One collection field (`{ id, name }`; only `id` is consulted). -/
structure CollectionField where
  id : Str
deriving DecidableEq, Repr

/-- Association-list lookup modelling JS object property access. -/
def lookupAssoc {α : Type} (l : List (Str × α)) (k : Str) : Option α :=
  match l.find? (fun e => e.1 == k) with
  | some e => some e.2
  | none => none

/-- `layer.text || layer.content || ''` (JS truthiness: the empty string is
falsy, any object is truthy). -/
def layerTextValue (layer : CanvasLayer) : TextValue :=
  match layer.text with
  | some (TextValue.str s) =>
      if s.isEmpty then
        (match layer.content with
         | some c => TextValue.str c
         | none => TextValue.str [])
      else TextValue.str s
  | some v => v
  | none =>
      match layer.content with
      | some c => TextValue.str c
      | none => TextValue.str []

/-- The replacement callback used by `getText` for inline variables: look up
the variable, require a `field` variable with a `field_id`, return the empty
string when the field no longer exists in the collection schema or the item
value is missing, otherwise the item value. -/
def resolveInlineVar (varMap : List (Str × VariableEntry))
    (fieldsForCollection : List CollectionField)
    (collectionItemData : List (Str × Str)) (variableId : Str) : Str :=
  match lookupAssoc varMap variableId with
  | some entry =>
      if entry.type == "field".data then
        match entry.data with
        | some d =>
            if d.field_id.isEmpty then []
            else
              let fieldExists := fieldsForCollection.any (fun f => f.id == d.field_id)
              if !fieldExists then []
              else
                match lookupAssoc collectionItemData d.field_id with
                | some value => value
                | none => []
        | none => []
      else []
  | none => []

/-- The final branch of `getText`: a plain string containing stray
inline-variable tags has them stripped. -/
def getTextPlain (s : Str) : Str :=
  if strIncludes "<ycode-inline-variable".data s then stripInlineTags s
  else s
/-- The inline-variable and plain-string branches of `getText` (split out of
the embedding of the source function for structural recursion; `s` is the
string value of `text`). -/
def getTextInline (collectionFields : List (Str × List CollectionField))
    (layer : CanvasLayer) (collectionItemData : Option (List (Str × Str)))
    (collectionId : Option Str) (s : Str) : Str :=
  match layer.varBindings with
  | some vars =>
    match vars.text with
    | some inlineContent =>
        let resolvedText := inlineContent.data
        (match collectionItemData, inlineContent.varMap with
         | some itemData, some varMap =>
             let fieldsForCollection :=
               match collectionId with
               | some cid =>
                   if cid.isEmpty then []
                   else (lookupAssoc collectionFields cid).getD []
               | none => []
             replaceInlineVars
               (resolveInlineVar varMap fieldsForCollection itemData) resolvedText
         | _, _ => replaceInlineVars (fun _ => []) resolvedText)
    | none => getTextPlain s
  | none => getTextPlain s

/-- Source: `getText` (canvas-renderer.js).  Resolves a field-variable text
binding, else inline rich-text content with placeholder markers, else plain
text (stripping stray inline-variable tags).  `collectionFields` is the
module-scoped field table; `collectionItemData` the values of the record the
layer is rendered for. -/
def getText (collectionFields : List (Str × List CollectionField))
    (layer : CanvasLayer) (collectionItemData : Option (List (Str × Str)))
    (collectionId : Option Str) : Str :=
  let text := layerTextValue layer
  -- field-variable text binding
  match text with
  | TextValue.fieldVar type data =>
      if type == "field".data &&
          (match data with
           | some d => !d.field_id.isEmpty
           | none => false) then
        match collectionItemData, data with
        | some itemData, some d =>
            (match lookupAssoc itemData d.field_id with
             | some value => value
             | none => [])
        | _, _ => []
      else
        -- a malformed field object falls through with no usable text
        getTextInline collectionFields layer collectionItemData collectionId []
  | TextValue.str s =>
      getTextInline collectionFields layer collectionItemData collectionId s


example :
    getText [("c1".data, [{ id := "f1".data }])]
      { varBindings := some ({ text := some ({
          data := "Hi <ycode-inline-variable id=\"v1\"></ycode-inline-variable>!".data,
          varMap := some [("v1".data,
            { type := "field".data, data := some ({ field_id := "f1".data }) })] }) }) }
      (some [("f1".data, "World".data)]) (some "c1".data)
      = "Hi World!".data := by decide

example :
    getText [("c1".data, [{ id := "f1".data }])]
      { varBindings := some ({ text := some ({
          data := "Hi <ycode-inline-variable id=\"v1\"></ycode-inline-variable>!".data,
          varMap := some [("v1".data,
            { type := "field".data, data := some ({ field_id := "f9".data }) })] }) }) }
      (some [("f9".data, "World".data)]) (some "c1".data)
      = "Hi !".data := by decide

/-- C1: the claim states that
`getInheritedValue(['w-[100px]', 'max-lg:w-[50px]'], 'width', 'mobile', 'neutral')`
returns `{value:'50px', source:'tablet'}`.  The code as written returns
`{value:'w-[100px]', source:'mobile'}` instead: `BREAKPOINT_CONFIG` is
mobile-first (`desktop ↦ 'lg:'`, `tablet ↦ 'md:'`, `mobile ↦ ''`), so the
desktop-first chain of `getInheritedValue` never matches the `max-lg:`
token, and the unprefixed token is found at the `mobile` step of the chain
(which the function's own comment labels the desktop case).  This theorem
evaluates the embedded code at the claim's input. -/
theorem getInheritedValue_mobile_inheritance_actual :
    getInheritedValue ["w-[100px]".data, "max-lg:w-[50px]".data]
        "width".data .mobile .neutral
      = { value := some "w-[100px]".data, source := some .mobile } := by decide

/-- C2: the claim states the desktop-first prefix grammar — desktop has the
empty prefix, tablet and mobile the `max-lg:`/`max-md:` literals that
`parseBreakpointClass` recognizes.  The constants in `BREAKPOINT_CONFIG`
are instead the mobile-first ones: `getBreakpointPrefix('desktop')` is
`'lg:'` (not `''`), `addBreakpointPrefix('desktop', c)` prepends `lg:`, and
tablet/mobile map to `md:`/`''` — contradicting the function's own doc
comment examples and the desktop-first `parseBreakpointClass`, which this
theorem also evaluates for contrast. -/
theorem breakpoint_pfx_constants_actual :
    getBreakpointPfx .desktop = "lg:".data
      ∧ getBreakpointPfx .tablet = "md:".data
      ∧ getBreakpointPfx .mobile = "".data
      ∧ addBreakpointPfx .desktop "w-[100px]".data = "lg:w-[100px]".data
      ∧ parseBreakpointClass "max-lg:w-[50px]".data
          = { breakpoint := .tablet, baseClass := "w-[50px]".data }
      ∧ parseBreakpointClass "max-md:w-[50px]".data
          = { breakpoint := .mobile, baseClass := "w-[50px]".data }
      ∧ parseBreakpointClass "w-[50px]".data
          = { breakpoint := .desktop, baseClass := "w-[50px]".data } := by decide

/-- C4: the claim states that, for `['bg-red-500','hover:bg-blue-500']`,
`getInheritedValue(…,'backgroundColor','desktop','hover')` returns
`{value:'blue-500', source:'desktop'}` and the neutral query returns
`{value:'red-500', source:'desktop'}`.  Because
`BREAKPOINT_CONFIG.desktop.prefix` is `'lg:'`, the desktop chain step looks
for `lg:`-prefixed classes only, finds neither token, and both queries
return `{value:null, source:null}`.  This theorem evaluates the embedded
code at the claim's inputs. -/
theorem getInheritedValue_state_overlay_actual :
    getInheritedValue ["bg-red-500".data, "hover:bg-blue-500".data]
        "backgroundColor".data .desktop .hover
      = { value := none, source := none }
      ∧ getInheritedValue ["bg-red-500".data, "hover:bg-blue-500".data]
          "backgroundColor".data .desktop .neutral
        = { value := none, source := none } := by decide

/-- C10 counterexample: the claim "if `isColorValue(value)` is true then
`isImageValue(value)` is false" fails at `value = "rgb(http://a)"`: the
value matches the color test `^rgba?\s*\(` and also contains `http://`,
which `isImageValue` checks before consulting `isColorValue`. -/
theorem isColorValue_isImageValue_both_true :
    isColorValue "rgb(http://a)".data = true
      ∧ isImageValue "rgb(http://a)".data = true := by decide

/-- C10 amended: a color value is never classified as an image, provided it
does not contain one of the URL/gradient markers that `isImageValue` checks
before the color test (`url(` at the start; `http://`, `https://`, `data:`,
or a gradient call anywhere). -/
theorem isImageValue_false_of_color_amended (value : Str)
    (hc : isColorValue value = true)
    (hu : isImageUrlLike value = false)
    (hg : isImageGradientLike value = false) :
    isImageValue value = false := by
  unfold isImageValue
  rw [hu, hg, hc]
  simp

/-- Witness for the C10 amended theorem at `value = "red"`. -/
theorem isImageValue_false_of_color_amended_witness :
    (isColorValue "red".data = true
        ∧ isImageUrlLike "red".data = false
        ∧ isImageGradientLike "red".data = false)
      ∧ isImageValue "red".data = false :=
  ⟨by decide,
   isImageValue_false_of_color_amended "red".data (by decide) (by decide) (by decide)⟩

/-- `takeWhile` stops exactly at the first failing element. -/
theorem takeWhile_all_append (p : Char → Bool) (xs : Str) (y : Char) (ys : Str)
    (h1 : ∀ x ∈ xs, p x = true) (h2 : p y = false) :
    (xs ++ y :: ys).takeWhile p = xs := by
  induction xs with
  | nil => simp [List.takeWhile_cons, h2]
  | cons a l ih =>
      have ha : p a = true := h1 a (by simp)
      simp only [List.cons_append, List.takeWhile_cons, ha, if_true]
      rw [ih (fun x hx => h1 x (by simp [hx]))]

/-- `extractArbitraryValue` on a string whose first bracket group is
well-formed returns exactly that group: the prefix contains no `[`, the
group body is nonempty and contains no `]`. -/
theorem extractArbitraryValue_bracket (pre v rest : Str)
    (hpre : ∀ c ∈ pre, c ≠ '[') (hv : v ≠ []) (hq : ∀ c ∈ v, c ≠ ']') :
    extractArbitraryValue (pre ++ '[' :: (v ++ ']' :: rest)) = some v := by
  induction pre with
  | nil =>
      simp only [List.nil_append, extractArbitraryValue, if_pos rfl]
      have htw : (v ++ ']' :: rest).takeWhile (fun x => x != ']') = v := by
        apply takeWhile_all_append
        · intro x hx
          simpa using hq x hx
        · simp
      rw [htw]
      have hdrop : (v ++ ']' :: rest).drop v.length = ']' :: rest :=
        List.drop_left v (']' :: rest)
      rw [hdrop]
      simp [hv]
  | cons c pre' ih =>
      have hc : c ≠ '[' := hpre c (by simp)
      simp only [List.cons_append, extractArbitraryValue, if_neg hc]
      exact ih (fun x hx => hpre x (by simp [hx]))

/-- A class kept by `removeKeep` and present in the input stays in the
output of `removeConflictingClasses`. -/
theorem mem_removeConflicting_of_keep {classes : List Str} {tok prop : Str}
    {pat : Str → Bool} (hpat : getConflictingClassPattern prop = some pat)
    (hkeep : removeKeep pat prop tok = true) (hmem : tok ∈ classes) :
    tok ∈ removeConflictingClasses classes prop := by
  unfold removeConflictingClasses
  rw [hpat]
  exact List.mem_filter.mpr ⟨hmem, hkeep⟩

/-- A well-formed `text-[v]` token decomposes for the bracket-extraction
lemma. -/
theorem text_tok_shape (v : Str) :
    "text-[".data ++ v ++ "]".data = "text-".data ++ '[' :: (v ++ ']' :: []) := by
  simp

/-- A well-formed `bg-[v]` token decomposes for the bracket-extraction
lemma. -/
theorem bg_tok_shape (v : Str) :
    "bg-[".data ++ v ++ "]".data = "bg-".data ++ '[' :: (v ++ ']' :: []) := by
  simp

/-- `removeKeep` keeps a color-valued `text-[...]` token when removing
`fontSize` conflicts. -/
theorem removeKeep_fontSize_keeps_color (v : Str) (hv : v ≠ [])
    (hq : ∀ c ∈ v, c ≠ ']') (hcol : isColorValue v = true) :
    removeKeep patFontSize "fontSize".data ("text-[".data ++ v ++ "]".data) = true := by
  have hex : extractArbitraryValue ("text-[".data ++ v ++ "]".data) = some v := by
    rw [text_tok_shape]
    exact extractArbitraryValue_bracket _ v [] (by decide) hv hq
  have hstart : strStarts "text-[".data ("text-[".data ++ v ++ "]".data) = true := by
    simp [strStarts, List.isPrefixOf]
  unfold removeKeep
  simp at hex hstart
  cases hpat : patFontSize ("text-[".data ++ v ++ "]".data) with
  | false => simp [hpat]
  | true =>
      simp [hpat, hstart, hex, hcol]

/-- Pattern-table lookups for the four overloaded properties. -/
theorem getPattern_fontSize : getConflictingClassPattern "fontSize".data = some patFontSize := rfl

theorem getPattern_color : getConflictingClassPattern "color".data = some patColor := rfl

theorem getPattern_backgroundColor :
    getConflictingClassPattern "backgroundColor".data = some patBackgroundColor := rfl

theorem getPattern_backgroundImage :
    getConflictingClassPattern "backgroundImage".data = some patBackgroundImage := rfl

/-- `removeKeep` keeps a size-valued `text-[...]` token when removing
`color` conflicts. -/
theorem removeKeep_color_keeps_size (v : Str) (hv : v ≠ [])
    (hq : ∀ c ∈ v, c ≠ ']') (hcol : isColorValue v = false) :
    removeKeep patColor "color".data ("text-[".data ++ v ++ "]".data) = true := by
  have hex : extractArbitraryValue ("text-[".data ++ v ++ "]".data) = some v := by
    rw [text_tok_shape]
    exact extractArbitraryValue_bracket _ v [] (by decide) hv hq
  have hstart : strStarts "text-[".data ("text-[".data ++ v ++ "]".data) = true := by
    simp [strStarts, List.isPrefixOf]
  unfold removeKeep
  simp at hex hstart
  cases hpat : patColor ("text-[".data ++ v ++ "]".data) with
  | false => simp [hpat]
  | true => simp [hpat, hstart, hex, hcol]

/-- `removeKeep` keeps an image-valued `bg-[...]` token when removing
`backgroundColor` conflicts. -/
theorem removeKeep_bgColor_keeps_image (v : Str) (hv : v ≠ [])
    (hq : ∀ c ∈ v, c ≠ ']') (himg : isImageValue v = true) :
    removeKeep patBackgroundColor "backgroundColor".data
      ("bg-[".data ++ v ++ "]".data) = true := by
  have hex : extractArbitraryValue ("bg-[".data ++ v ++ "]".data) = some v := by
    rw [bg_tok_shape]
    exact extractArbitraryValue_bracket _ v [] (by decide) hv hq
  have hstart : strStarts "bg-[".data ("bg-[".data ++ v ++ "]".data) = true := by
    simp [strStarts, List.isPrefixOf]
  unfold removeKeep
  simp at hex hstart
  cases hpat : patBackgroundColor ("bg-[".data ++ v ++ "]".data) with
  | false => simp [hpat]
  | true => simp [hpat, hstart, hex, himg, strStarts, List.isPrefixOf]

/-- `removeKeep` keeps a color-valued `bg-[...]` token when removing
`backgroundImage` conflicts. -/
theorem removeKeep_bgImage_keeps_color (v : Str) (hv : v ≠ [])
    (hq : ∀ c ∈ v, c ≠ ']') (himg : isImageValue v = false) :
    removeKeep patBackgroundImage "backgroundImage".data
      ("bg-[".data ++ v ++ "]".data) = true := by
  have hex : extractArbitraryValue ("bg-[".data ++ v ++ "]".data) = some v := by
    rw [bg_tok_shape]
    exact extractArbitraryValue_bracket _ v [] (by decide) hv hq
  have hstart : strStarts "bg-[".data ("bg-[".data ++ v ++ "]".data) = true := by
    simp [strStarts, List.isPrefixOf]
  unfold removeKeep
  simp at hex hstart
  cases hpat : patBackgroundImage ("bg-[".data ++ v ++ "]".data) with
  | false => simp [hpat]
  | true => simp [hpat, hstart, hex, himg, strStarts, List.isPrefixOf]

/-- C3: overload safety of conflict removal.  The two concrete equalities of
the claim hold, and in general a co-located `text-[v]` token whose bracket
value the color heuristic assigns to the other member of the
fontSize/color overload is never removed, and symmetrically for
`bg-[v]` and backgroundColor/backgroundImage. -/
theorem removeConflictingClasses_overload_safety :
    (removeConflictingClasses ["text-[1.5rem]".data, "text-[#ff0000]".data]
        "fontSize".data = ["text-[#ff0000]".data])
    ∧ (removeConflictingClasses ["text-[1.5rem]".data, "text-[#ff0000]".data]
        "color".data = ["text-[1.5rem]".data])
    ∧ (∀ (classes : List Str) (v : Str), v ≠ [] → (∀ c ∈ v, c ≠ ']') →
        isColorValue v = true →
        "text-[".data ++ v ++ "]".data ∈ classes →
        "text-[".data ++ v ++ "]".data ∈ removeConflictingClasses classes "fontSize".data)
    ∧ (∀ (classes : List Str) (v : Str), v ≠ [] → (∀ c ∈ v, c ≠ ']') →
        isColorValue v = false →
        "text-[".data ++ v ++ "]".data ∈ classes →
        "text-[".data ++ v ++ "]".data ∈ removeConflictingClasses classes "color".data)
    ∧ (∀ (classes : List Str) (v : Str), v ≠ [] → (∀ c ∈ v, c ≠ ']') →
        isImageValue v = true →
        "bg-[".data ++ v ++ "]".data ∈ classes →
        "bg-[".data ++ v ++ "]".data ∈ removeConflictingClasses classes "backgroundColor".data)
    ∧ (∀ (classes : List Str) (v : Str), v ≠ [] → (∀ c ∈ v, c ≠ ']') →
        isImageValue v = false →
        "bg-[".data ++ v ++ "]".data ∈ classes →
        "bg-[".data ++ v ++ "]".data ∈ removeConflictingClasses classes "backgroundImage".data) := by
  refine ⟨by decide, by decide, ?_, ?_, ?_, ?_⟩
  · intro classes v hv hq hcol hmem
    exact mem_removeConflicting_of_keep getPattern_fontSize
      (removeKeep_fontSize_keeps_color v hv hq hcol) hmem
  · intro classes v hv hq hcol hmem
    exact mem_removeConflicting_of_keep getPattern_color
      (removeKeep_color_keeps_size v hv hq hcol) hmem
  · intro classes v hv hq himg hmem
    exact mem_removeConflicting_of_keep getPattern_backgroundColor
      (removeKeep_bgColor_keeps_image v hv hq himg) hmem
  · intro classes v hv hq himg hmem
    exact mem_removeConflicting_of_keep getPattern_backgroundImage
      (removeKeep_bgImage_keeps_color v hv hq himg) hmem

/-- Witness for C3's universally quantified parts, at concrete token lists
and bracket values. -/
theorem removeConflictingClasses_overload_safety_witness :
    (("#00ff00".data ≠ ([] : Str)) ∧ isColorValue "#00ff00".data = true
      ∧ isColorValue "2rem".data = false
      ∧ isImageValue "url(a.png)".data = true
      ∧ isImageValue "#00ff00".data = false)
    ∧ "text-[#00ff00]".data ∈
        removeConflictingClasses ["text-[2rem]".data, "text-[#00ff00]".data] "fontSize".data
    ∧ "text-[2rem]".data ∈
        removeConflictingClasses ["text-[2rem]".data, "text-[#00ff00]".data] "color".data
    ∧ "bg-[url(a.png)]".data ∈
        removeConflictingClasses ["bg-[url(a.png)]".data, "bg-[#00ff00]".data]
          "backgroundColor".data
    ∧ "bg-[#00ff00]".data ∈
        removeConflictingClasses ["bg-[url(a.png)]".data, "bg-[#00ff00]".data]
          "backgroundImage".data := by
  refine ⟨by decide, ?_, ?_, ?_, ?_⟩
  · have h := removeConflictingClasses_overload_safety.2.2.1
      ["text-[2rem]".data, "text-[#00ff00]".data] "#00ff00".data
      (by decide) (by decide) (by decide)
    exact h (by decide)
  · have h := removeConflictingClasses_overload_safety.2.2.2.1
      ["text-[2rem]".data, "text-[#00ff00]".data] "2rem".data
      (by decide) (by decide) (by decide)
    exact h (by decide)
  · have h := removeConflictingClasses_overload_safety.2.2.2.2.1
      ["bg-[url(a.png)]".data, "bg-[#00ff00]".data] "url(a.png)".data
      (by decide) (by decide) (by decide)
    exact h (by decide)
  · have h := removeConflictingClasses_overload_safety.2.2.2.2.2
      ["bg-[url(a.png)]".data, "bg-[#00ff00]".data] "#00ff00".data
      (by decide) (by decide) (by decide)
    exact h (by decide)

/-- The renderer's mobile filter loop is exactly a filter on the
base-class test. -/
theorem filterClassesLoop_mobile (l : List Str) :
    filterClassesLoop .mobile l = l.filter (fun cls =>
      !(strStarts "md:".data cls || strIncludes " md:".data cls)
        && !(strStarts "lg:".data cls || strIncludes " lg:".data cls)) := by
  induction l with
  | nil => rfl
  | cons cls rest ih =>
      unfold filterClassesLoop
      simp only [List.filter_cons]
      cases h : (!(strStarts "md:".data cls || strIncludes " md:".data cls)
          && !(strStarts "lg:".data cls || strIncludes " lg:".data cls)) with
      | true => simp only [h, if_true, ih]
      | false => simp only [h, if_false, ih]

/-- C8: renderer breakpoint filtering at mobile.  Concretely, a token set
with a tablet-prefixed (`md:`) and a desktop-prefixed (`lg:`) entry for the
same property filters to nothing at mobile; in general the mobile filter
keeps exactly the tokens that carry neither an `md:` nor an `lg:` mark
(the renderer's filter is mobile-first: base classes only at mobile). -/
theorem filterClassesByBreakpoint_mobile_base_only :
    (filterClassesByBreakpoint "md:w-[50px] lg:w-[100px]".data .mobile = "".data)
    ∧ (∀ s : Str, filterClassesByBreakpoint s .mobile
        = List.intercalate " ".data
            (((s.splitOn ' ').filter (fun t => !t.isEmpty)).filter
              (fun cls => !(strStarts "md:".data cls || strIncludes " md:".data cls)
                && !(strStarts "lg:".data cls || strIncludes " lg:".data cls)))) := by
  constructor
  · decide
  · intro s
    unfold filterClassesByBreakpoint
    cases hs : s.isEmpty with
    | true =>
        have : s = [] := by
          cases s with
          | nil => rfl
          | cons c cs => simp [List.isEmpty] at hs
        subst this
        rfl
    | false => simp [hs, filterClassesLoop_mobile]

/-- Removing conflicts for the same property twice is the same as once. -/
theorem removeConflictingClasses_idem (cs : List Str) (p : Str) :
    removeConflictingClasses (removeConflictingClasses cs p) p
      = removeConflictingClasses cs p := by
  unfold removeConflictingClasses
  cases h : getConflictingClassPattern p with
  | none => rfl
  | some pat =>
      dsimp only
      rw [List.filter_filter]
      exact List.filter_congr (fun x _ => Bool.and_self (removeKeep pat p x))

/-- Conflict removals for different properties commute. -/
theorem removeConflictingClasses_comm (cs : List Str) (p q : Str) :
    removeConflictingClasses (removeConflictingClasses cs p) q
      = removeConflictingClasses (removeConflictingClasses cs q) p := by
  unfold removeConflictingClasses
  cases hp : getConflictingClassPattern p with
  | none => rfl
  | some pp =>
      cases hq : getConflictingClassPattern q with
      | none => rfl
      | some pq =>
          dsimp only
          rw [List.filter_filter, List.filter_filter]
          exact List.filter_congr
            (fun x _ => Bool.and_comm (removeKeep pq q x) (removeKeep pp p x))

/-- One conflict removal commutes with a fold of conflict removals. -/
theorem removeConflictingClasses_foldl_comm (ps : List Str) (cs : List Str) (p : Str) :
    removeConflictingClasses
        (ps.foldl (fun r q => removeConflictingClasses r q) cs) p
      = ps.foldl (fun r q => removeConflictingClasses r q)
          (removeConflictingClasses cs p) := by
  induction ps generalizing cs with
  | nil => rfl
  | cons q ps ih =>
      simp only [List.foldl_cons]
      rw [ih, removeConflictingClasses_comm]

/-- A fold of conflict removals is idempotent. -/
theorem removeConflictingClasses_foldl_idem (ps : List Str) (cs : List Str) :
    ps.foldl (fun r q => removeConflictingClasses r q)
        (ps.foldl (fun r q => removeConflictingClasses r q) cs)
      = ps.foldl (fun r q => removeConflictingClasses r q) cs := by
  induction ps generalizing cs with
  | nil => rfl
  | cons p ps ih =>
      simp only [List.foldl_cons]
      rw [removeConflictingClasses_foldl_comm, removeConflictingClasses_idem, ih]

/-- C5: `removeConflictsForClass` is idempotent — applying it twice with the
same new class yields the same token list as applying it once. -/
theorem removeConflictsForClass_idempotent (tokens : List Str) (t : Str) :
    removeConflictsForClass (removeConflictsForClass tokens t) t
      = removeConflictsForClass tokens t := by
  unfold removeConflictsForClass
  exact removeConflictingClasses_foldl_idem (getAffectedProperties t) tokens

/-- A state-skipped class is a no-op for the `classesToDesign` walk. -/
theorem processClass_skip (d : DesignAcc) (c : Str) (h : stateSkipped c = true) :
    processClass d c = d := by
  unfold stateSkipped at h
  unfold processClass
  cases hA : startsWithAny statePfxList c with
  | true => simp [hA]
  | false =>
      rw [hA] at h
      simp only [Bool.false_or] at h
      simp [hA, h]

/-- Dropping all state-skipped classes does not change the fold. -/
theorem foldl_processClass_filter (cs : List Str) (d : DesignAcc) :
    (cs.filter (fun c => !(stateSkipped c))).foldl processClass d
      = cs.foldl processClass d := by
  induction cs generalizing d with
  | nil => rfl
  | cons c cs ih =>
      cases h : stateSkipped c with
      | true =>
          simp only [List.filter_cons, h, Bool.not_true, if_false, List.foldl_cons]
          rw [processClass_skip d c h]
          exact ih d
      | false =>
          simp only [List.filter_cons, h, Bool.not_false, if_true, List.foldl_cons]
          exact ih (processClass d c)

/-- C6: `classesToDesign` excludes every state-prefixed token (bare or
breakpoint-combined) — filtering them away first gives the same design —
strips a breakpoint-only prefix and parses the base token as if unprefixed,
and always returns all eight category keys. -/
theorem classesToDesign_state_and_breakpoint :
    (∀ cs : List Str,
        classesToDesign cs = classesToDesign (cs.filter (fun c => !(stateSkipped c))))
    ∧ (∀ (pre c : Str) (cs : List Str),
        pre ∈ ["max-lg:".data, "max-md:".data, "lg:".data, "md:".data] →
        startsWithAny statePfxList c = false →
        firstBpSplit c = none →
        classesToDesign ((pre ++ c) :: cs) = classesToDesign (c :: cs))
    ∧ (∀ cs : List Str,
        (classesToDesign cs).layout.isSome ∧ (classesToDesign cs).typography.isSome
          ∧ (classesToDesign cs).spacing.isSome ∧ (classesToDesign cs).sizing.isSome
          ∧ (classesToDesign cs).borders.isSome ∧ (classesToDesign cs).backgrounds.isSome
          ∧ (classesToDesign cs).effects.isSome ∧ (classesToDesign cs).positioning.isSome) := by
  refine ⟨?_, ?_, ?_⟩
  · intro cs
    unfold classesToDesign
    rw [foldl_processClass_filter]
  · intro pre c cs hpre hc hn
    have key : ∀ d : DesignAcc, processClass d (pre ++ c) = processClass d c := by
      intro d
      simp only [List.mem_cons, List.not_mem_nil, or_false] at hpre
      rcases hpre with h | h | h | h <;> subst h
      · have hA : startsWithAny statePfxList ("max-lg:".data ++ c) = false := by
          simp [startsWithAny, statePfxList, strStarts, List.isPrefixOf]
        have hB : firstBpSplit ("max-lg:".data ++ c) = some c := by
          simp [firstBpSplit, strStarts, List.isPrefixOf]
        simp at hA hB
        simp [processClass, stripBp, hA, hB, hc, hn]
      · have hA : startsWithAny statePfxList ("max-md:".data ++ c) = false := by
          simp [startsWithAny, statePfxList, strStarts, List.isPrefixOf]
        have hB : firstBpSplit ("max-md:".data ++ c) = some c := by
          simp [firstBpSplit, strStarts, List.isPrefixOf]
        simp at hA hB
        simp [processClass, stripBp, hA, hB, hc, hn]
      · have hA : startsWithAny statePfxList ("lg:".data ++ c) = false := by
          simp [startsWithAny, statePfxList, strStarts, List.isPrefixOf]
        have hB : firstBpSplit ("lg:".data ++ c) = some c := by
          simp [firstBpSplit, strStarts, List.isPrefixOf]
        simp at hA hB
        simp [processClass, stripBp, hA, hB, hc, hn]
      · have hA : startsWithAny statePfxList ("md:".data ++ c) = false := by
          simp [startsWithAny, statePfxList, strStarts, List.isPrefixOf]
        have hB : firstBpSplit ("md:".data ++ c) = some c := by
          simp [firstBpSplit, strStarts, List.isPrefixOf]
        simp at hA hB
        simp [processClass, stripBp, hA, hB, hc, hn]
    unfold classesToDesign
    simp only [List.foldl_cons, key]
  · intro cs
    exact ⟨rfl, rfl, rfl, rfl, rfl, rfl, rfl, rfl⟩

/-- Witness for C6 at a concrete breakpoint-prefixed token. -/
theorem classesToDesign_state_and_breakpoint_witness :
    (("max-lg:".data ∈ ["max-lg:".data, "max-md:".data, "lg:".data, "md:".data])
      ∧ startsWithAny statePfxList "w-[50px]".data = false
      ∧ firstBpSplit "w-[50px]".data = none)
    ∧ classesToDesign ["max-lg:w-[50px]".data] = classesToDesign ["w-[50px]".data] := by
  refine ⟨by decide, ?_⟩
  have h := classesToDesign_state_and_breakpoint.2.1 "max-lg:".data "w-[50px]".data []
    (by decide) (by decide) (by decide)
  simpa using h

/-- A list is always a prefix of itself followed by anything. -/
theorem isPrefixOf_append_self (p s : Str) : p.isPrefixOf (p ++ s) = true := by
  induction p with
  | nil => simp [List.isPrefixOf]
  | cons a as ih => simp [List.isPrefixOf, ih]

/-- The placeholder matcher fails when the scan position is not at a `<`. -/
theorem matchInlineVar_none_of_ne (c : Char) (cs : Str) (h : c ≠ '<') :
    matchInlineVar (c :: cs) = none := by
  have hb : (('<' : Char) == c) = false := by
    simp [Ne.symm h]
  simp [matchInlineVar, inlineVarOpen, List.isPrefixOf, hb]

/-- The placeholder matcher recognizes a well-formed marker at the scan
position and consumes exactly the marker. -/
theorem matchInlineVar_marker (vid post : Str) (hvid : vid ≠ []) (hq : '"' ∉ vid) :
    matchInlineVar (inlineVarMarker vid ++ post) = some (vid, post) := by
  have hshape : inlineVarMarker vid ++ post
      = inlineVarOpen ++ (vid ++ (inlineVarClose ++ post)) := by
    simp [inlineVarMarker, List.append_assoc]
  have hpfx : inlineVarOpen.isPrefixOf (inlineVarMarker vid ++ post) = true := by
    rw [hshape]; exact isPrefixOf_append_self _ _
  unfold matchInlineVar
  rw [hpfx]
  simp only [if_true]
  have hdrop1 : (inlineVarMarker vid ++ post).drop inlineVarOpen.length
      = vid ++ (inlineVarClose ++ post) := by
    rw [hshape]; exact List.drop_left _ _
  rw [hdrop1]
  have hclose : inlineVarClose ++ post = '"' :: ("></ycode-inline-variable>".data ++ post) := by
    simp [inlineVarClose]
  have htw : (vid ++ (inlineVarClose ++ post)).takeWhile (fun c => c != '"') = vid := by
    rw [hclose]
    exact takeWhile_all_append _ vid '"' _
      (fun x hx => by simp; exact fun he => hq (he ▸ hx)) (by simp)
  rw [htw]
  have hdrop2 : (vid ++ (inlineVarClose ++ post)).drop vid.length
      = inlineVarClose ++ post := List.drop_left _ _
  rw [hdrop2]
  have hpfx2 : inlineVarClose.isPrefixOf (inlineVarClose ++ post) = true :=
    isPrefixOf_append_self _ _
  rw [hpfx2]
  simp [hvid, List.drop_left]

/-- Marker replacement leaves a marker-free string unchanged (any fuel). -/
theorem replaceInlineVarsFuel_id (resolve : Str → Str) (fuel : Nat) (s : Str)
    (h : '<' ∉ s) : replaceInlineVarsFuel resolve fuel s = s := by
  induction fuel generalizing s with
  | zero => rfl
  | succ f ih =>
      cases s with
      | nil => rfl
      | cons c cs =>
          have hc : c ≠ '<' := fun he => h (by simp [he])
          unfold replaceInlineVarsFuel
          rw [matchInlineVar_none_of_ne c cs hc]
          rw [ih cs (fun hm => h (by simp [hm]))]

/-- Marker replacement resolves a single well-formed marker between
marker-free text. -/
theorem replaceInlineVarsFuel_single (resolve : Str → Str) (vid pre post : Str)
    (hpre : '<' ∉ pre) (hpost : '<' ∉ post) (hvid : vid ≠ []) (hq : '"' ∉ vid) :
    ∀ fuel, (pre ++ inlineVarMarker vid ++ post).length ≤ fuel →
      replaceInlineVarsFuel resolve fuel (pre ++ inlineVarMarker vid ++ post)
        = pre ++ resolve vid ++ post := by
  induction pre with
  | nil =>
      intro fuel hfuel
      simp only [List.nil_append] at hfuel ⊢
      cases fuel with
      | zero =>
          exfalso
          have : 0 < (inlineVarMarker vid ++ post).length := by
            simp [inlineVarMarker, inlineVarOpen]
          omega
      | succ f =>
          have hcons : inlineVarMarker vid ++ post
              = '<' :: (("ycode-inline-variable id=\"".data ++ vid ++ inlineVarClose) ++ post) := by
            simp [inlineVarMarker, inlineVarOpen]
          rw [hcons]
          unfold replaceInlineVarsFuel
          rw [← hcons, matchInlineVar_marker vid post hvid hq]
          dsimp only
          rw [replaceInlineVarsFuel_id resolve f post hpost]
  | cons c pre' ih =>
      intro fuel hfuel
      have hc : c ≠ '<' := fun he => hpre (by simp [he])
      cases fuel with
      | zero => simp at hfuel
      | succ f =>
          have hcons : (c :: pre') ++ inlineVarMarker vid ++ post
              = c :: (pre' ++ inlineVarMarker vid ++ post) := by simp
          rw [hcons]
          unfold replaceInlineVarsFuel
          rw [matchInlineVar_none_of_ne c _ hc]
          rw [ih (fun hx => hpre (by simp [hx])) f (by
            rw [hcons] at hfuel
            simp only [List.length_cons] at hfuel
            omega)]
          simp

/-- C9: renderer text-deletion safety.  For any layer whose inline template
consists of marker-free text around one placeholder whose variable
references a field id absent from the supplied collection field list,
`getText` returns the template with the placeholder resolved to the empty
string: the raw marker does not survive into the output (and the embedding
is a total function, so no exception is possible). -/
theorem getText_deleted_field_safe
    (pre post vid fid : Str) (fields : List CollectionField)
    (itemData : List (Str × Str)) (cid : Str)
    (hpre : '<' ∉ pre) (hpost : '<' ∉ post)
    (hvid : vid ≠ []) (hq : '"' ∉ vid)
    (hfid : fid ≠ []) (hcid : cid ≠ [])
    (habsent : ∀ f ∈ fields, f.id ≠ fid) :
    getText [(cid, fields)]
      { varBindings := some ({ text := some ({
          data := pre ++ inlineVarMarker vid ++ post,
          varMap := some [(vid,
            { type := "field".data, data := some ({ field_id := fid }) })] }) }) }
      (some itemData) (some cid)
      = pre ++ post := by
  have hlookup : lookupAssoc [(cid, fields)] cid = some fields := by
    simp [lookupAssoc]
  have hresolve :
      resolveInlineVar [(vid, { type := "field".data, data := some ({ field_id := fid }) })]
        fields itemData vid = [] := by
    unfold resolveInlineVar
    have hfind : lookupAssoc
        [(vid, ({ type := "field".data, data := some ({ field_id := fid }) } : VariableEntry))] vid
        = some { type := "field".data, data := some ({ field_id := fid }) } := by
      simp [lookupAssoc]
    rw [hfind]
    have hany : fields.any (fun f => f.id == fid) = false := by
      rw [List.any_eq_false]
      intro f hf
      simp [habsent f hf]
    simp [hfid, hany]
  unfold getText layerTextValue
  simp only [Option.isNone_none]
  unfold getTextInline
  simp only
  rw [hlookup]
  simp only [Option.getD_some]
  unfold replaceInlineVars
  rw [replaceInlineVarsFuel_single _ vid pre post hpre hpost hvid hq _ (Nat.le_refl _)]
  have hempty : cid.isEmpty = false := by
    cases cid with
    | nil => exact absurd rfl hcid
    | cons a l => rfl
  simp only [hempty, Bool.false_eq_true, if_false]
  simp at hresolve
  simp [hresolve]

/-- Witness for C9 at a concrete layer, template and stale field id. -/
theorem getText_deleted_field_safe_witness :
    ('<' ∉ "Hi ".data ∧ '<' ∉ "!".data ∧ "v1".data ≠ ([] : Str) ∧ '"' ∉ "v1".data
      ∧ "f9".data ≠ ([] : Str) ∧ "c1".data ≠ ([] : Str)
      ∧ (∀ f ∈ [({ id := "f1".data } : CollectionField)], f.id ≠ "f9".data))
    ∧ getText [("c1".data, [{ id := "f1".data }])]
        { varBindings := some ({ text := some ({
            data := "Hi ".data ++ inlineVarMarker "v1".data ++ "!".data,
            varMap := some [("v1".data,
              { type := "field".data, data := some ({ field_id := "f9".data }) })] }) }) }
        (some [("f9".data, "World".data)]) (some "c1".data)
        = "Hi ".data ++ "!".data :=
  ⟨⟨by decide, by decide, by decide, by decide, by decide, by decide, by decide⟩,
   getText_deleted_field_safe "Hi ".data "!".data "v1".data "f9".data
     [{ id := "f1".data }] [("f9".data, "World".data)] "c1".data
     (by decide) (by decide) (by decide) (by decide) (by decide) (by decide) (by decide)⟩

/-- Property access `design[category][property]` on the structured design
object (JS `undefined` is `none`; a property name outside the category's
interface is always `none`). -/
def designGet (d : DesignProperties) (category : Category) (property : Str) : Option Str :=
  match category with
  | .layout =>
      match d.layout with
      | none => none
      | some l =>
          if property == "display".data then l.display
          else if property == "flexDirection".data then l.flexDirection
          else if property == "justifyContent".data then l.justifyContent
          else if property == "alignItems".data then l.alignItems
          else if property == "gap".data then l.gap
          else if property == "gridTemplateColumns".data then l.gridTemplateColumns
          else if property == "gridTemplateRows".data then l.gridTemplateRows
          else none
  | .typography =>
      match d.typography with
      | none => none
      | some t =>
          if property == "fontSize".data then t.fontSize
          else if property == "fontWeight".data then t.fontWeight
          else if property == "fontFamily".data then t.fontFamily
          else if property == "lineHeight".data then t.lineHeight
          else if property == "letterSpacing".data then t.letterSpacing
          else if property == "textAlign".data then t.textAlign
          else if property == "textTransform".data then t.textTransform
          else if property == "textDecoration".data then t.textDecoration
          else if property == "color".data then t.color
          else none
  | .spacing =>
      match d.spacing with
      | none => none
      | some s =>
          if property == "margin".data then s.margin
          else if property == "marginTop".data then s.marginTop
          else if property == "marginRight".data then s.marginRight
          else if property == "marginBottom".data then s.marginBottom
          else if property == "marginLeft".data then s.marginLeft
          else if property == "padding".data then s.padding
          else if property == "paddingTop".data then s.paddingTop
          else if property == "paddingRight".data then s.paddingRight
          else if property == "paddingBottom".data then s.paddingBottom
          else if property == "paddingLeft".data then s.paddingLeft
          else none
  | .sizing =>
      match d.sizing with
      | none => none
      | some z =>
          if property == "width".data then z.width
          else if property == "height".data then z.height
          else if property == "minWidth".data then z.minWidth
          else if property == "minHeight".data then z.minHeight
          else if property == "maxWidth".data then z.maxWidth
          else if property == "maxHeight".data then z.maxHeight
          else none
  | .borders =>
      match d.borders with
      | none => none
      | some b =>
          if property == "borderWidth".data then b.borderWidth
          else if property == "borderStyle".data then b.borderStyle
          else if property == "borderColor".data then b.borderColor
          else if property == "borderRadius".data then b.borderRadius
          else if property == "borderTopLeftRadius".data then b.borderTopLeftRadius
          else if property == "borderTopRightRadius".data then b.borderTopRightRadius
          else if property == "borderBottomLeftRadius".data then b.borderBottomLeftRadius
          else if property == "borderBottomRightRadius".data then b.borderBottomRightRadius
          else none
  | .backgrounds =>
      match d.backgrounds with
      | none => none
      | some g =>
          if property == "backgroundColor".data then g.backgroundColor
          else if property == "backgroundImage".data then g.backgroundImage
          else if property == "backgroundSize".data then g.backgroundSize
          else if property == "backgroundPosition".data then g.backgroundPosition
          else if property == "backgroundRepeat".data then g.backgroundRepeat
          else none
  | .effects =>
      match d.effects with
      | none => none
      | some e =>
          if property == "opacity".data then e.opacity
          else if property == "boxShadow".data then e.boxShadow
          else none
  | .positioning =>
      match d.positioning with
      | none => none
      | some p =>
          if property == "position".data then p.position
          else if property == "top".data then p.top
          else if property == "right".data then p.right
          else if property == "bottom".data then p.bottom
          else if property == "left".data then p.left
          else if property == "zIndex".data then p.zIndex
          else none

/-- Every (category, property) pair handled by `propertyToClass` that does
not belong to an overloaded bracket family (fontSize/color via `text-[...]`,
backgroundColor/backgroundImage via `bg-[...]`). -/
def nonOverloadedPairs : List (Category × Str) :=
  [ (.layout, "display".data), (.layout, "flexDirection".data),
    (.layout, "flexWrap".data), (.layout, "justifyContent".data),
    (.layout, "alignItems".data), (.layout, "alignContent".data),
    (.layout, "gap".data), (.layout, "columnGap".data), (.layout, "rowGap".data),
    (.layout, "gridTemplateColumns".data), (.layout, "gridTemplateRows".data),
    (.typography, "fontWeight".data), (.typography, "fontFamily".data),
    (.typography, "lineHeight".data), (.typography, "letterSpacing".data),
    (.typography, "textAlign".data), (.typography, "textTransform".data),
    (.typography, "textDecoration".data),
    (.spacing, "padding".data), (.spacing, "paddingTop".data),
    (.spacing, "paddingRight".data), (.spacing, "paddingBottom".data),
    (.spacing, "paddingLeft".data), (.spacing, "margin".data),
    (.spacing, "marginTop".data), (.spacing, "marginRight".data),
    (.spacing, "marginBottom".data), (.spacing, "marginLeft".data),
    (.sizing, "width".data), (.sizing, "height".data),
    (.sizing, "minWidth".data), (.sizing, "minHeight".data),
    (.sizing, "maxWidth".data), (.sizing, "maxHeight".data),
    (.borders, "borderWidth".data), (.borders, "borderTopWidth".data),
    (.borders, "borderRightWidth".data), (.borders, "borderBottomWidth".data),
    (.borders, "borderLeftWidth".data), (.borders, "borderStyle".data),
    (.borders, "borderColor".data), (.borders, "borderRadius".data),
    (.borders, "borderTopLeftRadius".data), (.borders, "borderTopRightRadius".data),
    (.borders, "borderBottomRightRadius".data), (.borders, "borderBottomLeftRadius".data),
    (.backgrounds, "backgroundSize".data), (.backgrounds, "backgroundPosition".data),
    (.backgrounds, "backgroundRepeat".data),
    (.effects, "opacity".data), (.effects, "boxShadow".data),
    (.positioning, "position".data), (.positioning, "top".data),
    (.positioning, "right".data), (.positioning, "bottom".data),
    (.positioning, "left".data), (.positioning, "zIndex".data) ]

/-- The C7 claim, read as weakly as possible: for every non-overloaded
(category, property) pair there is a representative value whose emitted
token parses back to any value at all for that pair (the claim's "equals v
up to format normalization" implies this). -/
def C7RoundTripClaim : Prop :=
  ∀ p ∈ nonOverloadedPairs, ∃ v tok : Str,
    propertyToClass p.1 p.2 v = some tok
      ∧ (designGet (classesToDesign [tok]) p.1 p.2).isSome = true

/-- The backgrounds parser never writes `backgroundSize`. -/
theorem processBackgrounds_size (g : BackgroundsDesign) (c : Str) :
    (processBackgrounds g c).backgroundSize = g.backgroundSize := by
  unfold processBackgrounds
  split
  · split <;> rfl
  · rfl

/-- The post-color sections never write `backgroundSize`. -/
theorem processAfterColor_bgSize (d : DesignAcc) (c : Str) :
    (processAfterColor d c).backgrounds.backgroundSize
      = d.backgrounds.backgroundSize := by
  show (processBackgrounds d.backgrounds c).backgroundSize = d.backgrounds.backgroundSize
  exact processBackgrounds_size d.backgrounds c

/-- The whole per-class body never writes `backgroundSize`. -/
theorem processBase_bgSize (d : DesignAcc) (c : Str) :
    (processBase d c).backgrounds.backgroundSize = d.backgrounds.backgroundSize := by
  unfold processBase
  split
  · split
    · split
      · rfl
      · exact processAfterColor_bgSize _ c
    · exact processAfterColor_bgSize _ c
  · exact processAfterColor_bgSize _ c

/-- The per-class step never writes `backgroundSize`. -/
theorem processClass_bgSize (d : DesignAcc) (c : Str) :
    (processClass d c).backgrounds.backgroundSize = d.backgrounds.backgroundSize := by
  unfold processClass
  split
  · rfl
  · split
    · rfl
    · exact processBase_bgSize _ _

/-- `classesToDesign` never reconstructs `backgroundSize` from any input. -/
theorem classesToDesign_bgSize_none (cs : List Str) :
    designGet (classesToDesign cs) .backgrounds "backgroundSize".data = none := by
  have hfold : ∀ (l : List Str) (d : DesignAcc),
      (l.foldl processClass d).backgrounds.backgroundSize
        = d.backgrounds.backgroundSize := by
    intro l
    induction l with
    | nil => intro d; rfl
    | cons c l ih =>
        intro d
        rw [List.foldl_cons, ih, processClass_bgSize]
  have hval : (cs.foldl processClass {}).backgrounds.backgroundSize
      = (none : Option Str) := hfold cs {}
  simp [designGet, classesToDesign, hval]

/-- C7 counterexample: the round-trip claim is false — for the
non-overloaded pair (backgrounds, backgroundSize) no representative value
exists, because `classesToDesign` has no rule that writes `backgroundSize`
(`propertyToClass` emits `bg-<value>` for it, which the parser never maps
back).  The same mechanism breaks flexWrap, alignContent, columnGap,
rowGap, the four side border widths, backgroundPosition and
backgroundRepeat. -/
theorem roundTrip_claim_false : ¬ C7RoundTripClaim := by
  intro h
  obtain ⟨v, tok, _, hsome⟩ := h (.backgrounds, "backgroundSize".data) (by decide)
  rw [classesToDesign_bgSize_none [tok]] at hsome
  simp at hsome

/-- One round-trip check: the emitted token for (category, property, v)
parses back to the expected (format-normalized) value. -/
def roundTripOk (category : Category) (property v expected : Str) : Bool :=
  match propertyToClass category property v with
  | some tok => designGet (classesToDesign [tok]) category property == some expected
  | none => false

/-- Representative values and their format-normalized round-trip results for
every non-overloaded pair that `classesToDesign` can reconstruct (the only
normalization among them: opacity `0.5` is emitted as the percentage `50%`). -/
def roundTripCases : List (Category × Str × Str × Str) :=
  [ (.layout, "display".data, "flex".data, "flex".data),
    (.layout, "flexDirection".data, "column".data, "column".data),
    (.layout, "justifyContent".data, "center".data, "center".data),
    (.layout, "alignItems".data, "center".data, "center".data),
    (.layout, "gap".data, "10px".data, "10px".data),
    (.layout, "gridTemplateColumns".data, "1fr".data, "1fr".data),
    (.layout, "gridTemplateRows".data, "1fr".data, "1fr".data),
    (.typography, "fontWeight".data, "700".data, "700".data),
    (.typography, "fontFamily".data, "Arial, sans".data, "Arial, sans".data),
    (.typography, "lineHeight".data, "1.5".data, "1.5".data),
    (.typography, "letterSpacing".data, "2px".data, "2px".data),
    (.typography, "textAlign".data, "center".data, "center".data),
    (.typography, "textTransform".data, "uppercase".data, "uppercase".data),
    (.typography, "textDecoration".data, "underline".data, "underline".data),
    (.spacing, "padding".data, "10px".data, "10px".data),
    (.spacing, "paddingTop".data, "10px".data, "10px".data),
    (.spacing, "paddingRight".data, "10px".data, "10px".data),
    (.spacing, "paddingBottom".data, "10px".data, "10px".data),
    (.spacing, "paddingLeft".data, "10px".data, "10px".data),
    (.spacing, "margin".data, "10px".data, "10px".data),
    (.spacing, "marginTop".data, "10px".data, "10px".data),
    (.spacing, "marginRight".data, "10px".data, "10px".data),
    (.spacing, "marginBottom".data, "10px".data, "10px".data),
    (.spacing, "marginLeft".data, "10px".data, "10px".data),
    (.sizing, "width".data, "100px".data, "100px".data),
    (.sizing, "height".data, "100px".data, "100px".data),
    (.sizing, "minWidth".data, "100px".data, "100px".data),
    (.sizing, "minHeight".data, "100px".data, "100px".data),
    (.sizing, "maxWidth".data, "500px".data, "500px".data),
    (.sizing, "maxHeight".data, "500px".data, "500px".data),
    (.borders, "borderWidth".data, "2px".data, "2px".data),
    (.borders, "borderStyle".data, "solid".data, "solid".data),
    (.borders, "borderColor".data, "#ff0000".data, "#ff0000".data),
    (.borders, "borderRadius".data, "8px".data, "8px".data),
    (.borders, "borderTopLeftRadius".data, "8px".data, "8px".data),
    (.borders, "borderTopRightRadius".data, "8px".data, "8px".data),
    (.borders, "borderBottomRightRadius".data, "8px".data, "8px".data),
    (.borders, "borderBottomLeftRadius".data, "8px".data, "8px".data),
    (.effects, "opacity".data, "0.5".data, "50%".data),
    (.effects, "boxShadow".data, "0 1px 2px red".data, "0 1px 2px red".data),
    (.positioning, "position".data, "absolute".data, "absolute".data),
    (.positioning, "top".data, "10px".data, "10px".data),
    (.positioning, "right".data, "10px".data, "10px".data),
    (.positioning, "bottom".data, "10px".data, "10px".data),
    (.positioning, "left".data, "10px".data, "10px".data),
    (.positioning, "zIndex".data, "10".data, "10".data) ]

/-- C7 amended: the round-trip holds, with explicit format-normalized
expected values, for every non-overloaded pair except the eleven pairs
`classesToDesign` never reconstructs (flexWrap, alignContent, columnGap,
rowGap, the four side border widths, backgroundSize, backgroundPosition,
backgroundRepeat). -/
theorem roundTrip_nonoverloaded_amended :
    roundTripCases.all (fun q => roundTripOk q.1 q.2.1 q.2.2.1 q.2.2.2) = true := by
  decide
